import Mathlib

/-!
Builtin-variable registrar of the GLSL front end (`src/glsl/ir_variable.cpp`).

A shallow embedding of `ir_variable.cpp`.  The C++ functions mutate an
instruction list (`exec_list *instructions`) and a symbol table
(`state->symbols`); here both live in a `compile_unit` value that is threaded
through every function.  A reference to an `ir_variable` node (a C++ pointer)
is the position of the node in the instruction list: this file only ever
appends to that list (`push_tail`), so positions are stable.

A function that can end the process (`assert`, `exit(1)`, a failing
symbol-table insertion) returns an `Outcome` next to the compile unit as it
was left at that moment; assertions are modelled as enabled.
-/

namespace Glsl

/-! ## Data model -/

/-- The `enum ir_variable_mode` of `ir.h`: the five modes named in the `switch` of
`add_variable`, plus every other enum value (it reaches `default:`). -/
inductive ir_variable_mode
  | ir_var_auto
  | ir_var_uniform
  | ir_var_in
  | ir_var_out
  | ir_var_inout
  | unrecognized (raw : Nat)
  deriving DecidableEq

/-- The `glsl_type` handles this file touches: the static members `int_type`,
`float_type`, `vec4_type`, `mat4_type`, any other registry type (known by its
name), and array instances (`length = 0` is an unsized array); `array_of_null` is the
array instance over a null element handle. -/
inductive glsl_type
  | int_type
  | float_type
  | vec4_type
  | mat4_type
  | named (name : String)
  | array (element : glsl_type) (length : Nat)
  | array_of_null (length : Nat)
  deriving DecidableEq

/-- The C++ conversion `int(u)` of an `unsigned` value: reduction modulo `2^32` into
the signed range.  The limits of `state->Const` are unsigned counts: they are passed
as they are for the `unsigned` length of `get_array_instance`, and go through an
explicit `int(...)` where an `ir_constant(int)` is built from them. -/
def int_cast (u : Nat) : Int :=
  if u % 2 ^ 32 < 2 ^ 31 then ((u % 2 ^ 32 : Nat) : Int) else ((u % 2 ^ 32 : Nat) : Int) - 2 ^ 32

/-- An `ir_constant` built by the constructor `ir_constant(int)`. -/
inductive ir_constant
  | int (value : Int)
  deriving DecidableEq

/-- The fields of `ir_variable` that `ir_variable.cpp` reads or writes. -/
structure ir_variable where
  name : String
  type : glsl_type
  mode : ir_variable_mode
  read_only : Bool
  shader_in : Bool
  shader_out : Bool
  location : Int
  constant_value : Option ir_constant
  warn_extension : Option String
  deriving DecidableEq

/-- Modelled from the spec: the constructor `ir_variable(type, name)` of `ir.h`, which
is not among the sources.  A variable node carries "name, resolved type handle, mode,
derived qualifier flags (read-only, shader-input, shader-output), slot (hardware
binding or unassigned), optional constant value, optional extension-warning tag"; a
fresh node has the three flags clear, no slot (`-1`), no constant and no tag. -/
def ir_variable.ctor (type : glsl_type) (name : String) : ir_variable :=
  { name := name
    type := type
    mode := ir_variable_mode.ir_var_auto
    read_only := false
    shader_in := false
    shader_out := false
    location := -1
    constant_value := none
    warn_extension := none }

/-- One row of the static tables of `builtin_variables.h` (`struct builtin_variable`),
as `add_builtin_variable` reads it: `proto->name`, `proto->mode`, `proto->slot`,
`proto->type`. -/
structure builtin_variable where
  name : String
  mode : ir_variable_mode
  slot : Int
  type : String
  deriving DecidableEq

/-- The contents of `builtin_variables.h` and the three slot enumerators used by the
hard-coded declarations.  None of them is among the sources, so they are parameters of
every generator. -/
structure builtin_tables where
  builtin_core_vs_variables : List builtin_variable
  builtin_core_fs_variables : List builtin_variable
  builtin_110_deprecated_fs_variables : List builtin_variable
  builtin_110_deprecated_vs_variables : List builtin_variable
  builtin_120_fs_variables : List builtin_variable
  builtin_110_deprecated_uniforms : List builtin_variable
  builtin_130_vs_variables : List builtin_variable
  VERT_RESULT_TEX0 : Int
  FRAG_ATTRIB_TEX0 : Int
  FRAG_RESULT_DATA0 : Int

/-- The `enum _mesa_glsl_parser_targets`, with the four cases of the `switch` in
`_mesa_glsl_initialize_variables`. -/
inductive _mesa_glsl_parser_targets
  | vertex_shader
  | geometry_shader
  | fragment_shader
  | ir_shader
  deriving DecidableEq

/-- The implementation limits `state->Const` (unsigned counts). -/
structure gl_constants where
  MaxTextureCoords : Nat
  MaxDrawBuffers : Nat
  deriving DecidableEq

/-- The read-only part of `struct _mesa_glsl_parse_state`; its `symbols` member is the
symbol table of the `compile_unit`. -/
structure _mesa_glsl_parse_state where
  target : _mesa_glsl_parser_targets
  language_version : Nat
  Const : gl_constants
  deriving DecidableEq

/-- First binding of `key` in an association list. -/
def assoc_find {β : Type} (key : String) : List (String × β) → Option β
  | [] => none
  | (k, v) :: rest => if k = key then some v else assoc_find key rest

/-- The `glsl_symbol_table`: the variable name space (name to node reference, newest
binding first) and the type name space. -/
structure glsl_symbol_table where
  bindings : List (String × Nat)
  types : List (String × glsl_type)
  deriving DecidableEq

/-- The state the registrar works on: the instruction list and the symbol table. -/
structure compile_unit where
  instructions : List ir_variable
  symbols : glsl_symbol_table
  deriving DecidableEq

/-- The ways a call can end the process instead of returning. -/
inductive fatal_error
  | unrecognized_mode
  | type_not_found
  | duplicate_symbol
  | no_builtin_variables
  deriving DecidableEq

/-- How a call ends: it returns a value, or the process is terminated. -/
inductive Outcome (α : Type)
  | returned (value : α)
  | fatal (err : fatal_error)
  deriving DecidableEq

/-- A computation over the compile unit.  The compile unit of the result is the state
at the moment the call ended, also when it ended fatally. -/
def Exec (α : Type) : Type := compile_unit → Outcome α × compile_unit

/-- Sequencing: a fatal outcome skips the rest. -/
def Exec.bind {α β : Type} (x : Exec α) (f : α → Exec β) : Exec β := fun w =>
  match x w with
  | (Outcome.returned a, w1) => f a w1
  | (Outcome.fatal e, w1) => (Outcome.fatal e, w1)

instance : Monad Exec where
  pure := fun a w => (Outcome.returned a, w)
  bind := Exec.bind

/-- Terminate the process. -/
def die {α : Type} (e : fatal_error) : Exec α := fun w => (Outcome.fatal e, w)

/-! ## Collaborators that are not among the sources -/

/-- Modelled from the spec: `glsl_symbol_table::get_type` (`glsl_symbol_table.h` is not
among the sources), "TypeRegistry.lookup(name) -> TypeHandle".  The caller's
`assert(type != NULL)` shows that an absent name yields a null handle. -/
def glsl_symbol_table.get_type (symtab : glsl_symbol_table) (name : String) :
    Option glsl_type :=
  assoc_find name symtab.types

/-- Modelled from the spec: name resolution in the variable name space of the symbol
table, "mapping from name to variable-node reference". -/
def glsl_symbol_table.get_variable (symtab : glsl_symbol_table) (name : String) :
    Option Nat :=
  assoc_find name symtab.bindings

/-- Modelled from the spec: `glsl_symbol_table::add_variable` (`glsl_symbol_table.h` is
not among the sources), "SymbolTable.insert(name, node) (fails on duplicate)": "a prior
entry for the same name is a fatal internal error". -/
def glsl_symbol_table.add_variable (name : String) (var : Nat) : Exec Unit := fun w =>
  match w.symbols.get_variable name with
  | some _ => (Outcome.fatal fatal_error.duplicate_symbol, w)
  | none =>
    (Outcome.returned (),
      { w with symbols := { w.symbols with bindings := (name, var) :: w.symbols.bindings } })

/-- Modelled from the spec: `glsl_type::get_array_instance` (`glsl_types.h` is not among
the sources), "TypeRegistry.makeArray(elementType, length | unsized) -> TypeHandle".
The spec gives it no failure mode: it returns the array instance over the element
handle it is given and of the length it is given, also when that handle is null. -/
def glsl_type.get_array_instance (base : Option glsl_type) (length : Nat) :
    Exec glsl_type :=
  match base with
  | some t => pure (glsl_type.array t length)
  | none => pure (glsl_type.array_of_null length)

/-- The method `exec_list::push_tail`: append the node; its reference is its position. -/
def exec_list.push_tail (var : ir_variable) : Exec Nat := fun w =>
  (Outcome.returned w.instructions.length, { w with instructions := w.instructions ++ [var] })

/-- Apply `f` to the element at position `n`. -/
def modify_nth (f : ir_variable → ir_variable) : Nat → List ir_variable → List ir_variable
  | _, [] => []
  | 0, v :: rest => f v :: rest
  | n + 1, v :: rest => v :: modify_nth f n rest

/-- A write through a node pointer, `var->field = value`. -/
def update_node (var : Nat) (f : ir_variable → ir_variable) : Exec Unit := fun w =>
  (Outcome.returned (), { w with instructions := modify_nth f var w.instructions })

/-! ## The functions of `ir_variable.cpp` -/

/-- The function `add_variable` (lines 37-78); the `assert(0)` of `default:` ends the
run for a mode outside the five cases. -/
def add_variable (name : String) (mode : ir_variable_mode) (slot : Int)
    (type : glsl_type) : Exec Nat := do
  let var := ir_variable.ctor type name
  let var := { var with mode := mode }
  let var ← match var.mode with
    | ir_variable_mode.ir_var_auto => pure { var with read_only := true }
    | ir_variable_mode.ir_var_in => pure { var with shader_in := true, read_only := true }
    | ir_variable_mode.ir_var_inout => pure { var with shader_in := true, shader_out := true }
    | ir_variable_mode.ir_var_out => pure { var with shader_out := true }
    | ir_variable_mode.ir_var_uniform =>
      pure { var with shader_in := true, read_only := true }
    | ir_variable_mode.unrecognized _ => die fatal_error.unrecognized_mode
  let var := { var with location := slot }
  let ref ← exec_list.push_tail var
  glsl_symbol_table.add_variable var.name ref
  pure ref

/-- The function `add_builtin_variable` (lines 81-94); `assert(type != NULL)` ends the
run when the registry has no type of the name in the table row. -/
def add_builtin_variable (proto : builtin_variable) : Exec Unit := fun w =>
  match w.symbols.get_type proto.type with
  | none => (Outcome.fatal fatal_error.type_not_found, w)
  | some type =>
    (do
      let _ ← add_variable proto.name proto.mode proto.slot type
      pure ()) w

/-- The loop `for (i = 0; i < Elements(table); i++) add_builtin_variable(&table[i], ...)`. -/
def add_builtin_variables : List builtin_variable → Exec Unit
  | [] => pure ()
  | proto :: rest => do
    add_builtin_variable proto
    add_builtin_variables rest

/-- The function `generate_ARB_draw_buffers_variables` (lines 274-306). -/
def generate_ARB_draw_buffers_variables (T : builtin_tables) (Const : gl_constants)
    (warn : Bool) (target : _mesa_glsl_parser_targets) : Exec Unit := do
  let mdb ← add_variable "gl_MaxDrawBuffers" ir_variable_mode.ir_var_auto (-1)
    glsl_type.int_type
  if warn then
    update_node mdb (fun v => { v with warn_extension := some "GL_ARB_draw_buffers" })
  update_node mdb
    (fun v => { v with constant_value := some (ir_constant.int (int_cast Const.MaxDrawBuffers)) })
  if target = _mesa_glsl_parser_targets.fragment_shader then
    let vec4_array_type ←
      glsl_type.get_array_instance (some glsl_type.vec4_type) Const.MaxDrawBuffers
    let fd ← add_variable "gl_FragData" ir_variable_mode.ir_var_out T.FRAG_RESULT_DATA0
      vec4_array_type
    if warn then
      update_node fd (fun v => { v with warn_extension := some "GL_ARB_draw_buffers" })

/-- The function `generate_110_uniforms` (lines 97-146). -/
def generate_110_uniforms (T : builtin_tables) (Const : gl_constants) : Exec Unit := do
  add_builtin_variables T.builtin_110_deprecated_uniforms
  let mtc ← add_variable "gl_MaxTextureCoords" ir_variable_mode.ir_var_auto (-1)
    glsl_type.int_type
  update_node mtc
    (fun v => { v with constant_value := some (ir_constant.int (int_cast Const.MaxTextureCoords)) })
  let mat4_array_type ←
    glsl_type.get_array_instance (some glsl_type.mat4_type) Const.MaxTextureCoords
  let _ ← add_variable "gl_TextureMatrix" ir_variable_mode.ir_var_uniform (-1) mat4_array_type
  let light_source_array_type ← fun w =>
    glsl_type.get_array_instance (w.symbols.get_type "gl_LightSourceParameters") 8 w
  let _ ← add_variable "gl_LightSource" ir_variable_mode.ir_var_uniform (-1)
    light_source_array_type
  pure ()

/-- The function `generate_110_vs_variables` (lines 148-181). -/
def generate_110_vs_variables (T : builtin_tables) (Const : gl_constants) : Exec Unit := do
  add_builtin_variables T.builtin_core_vs_variables
  add_builtin_variables T.builtin_110_deprecated_vs_variables
  generate_110_uniforms T Const
  let vec4_array_type ← glsl_type.get_array_instance (some glsl_type.vec4_type) 0
  let _ ← add_variable "gl_TexCoord" ir_variable_mode.ir_var_out T.VERT_RESULT_TEX0
    vec4_array_type
  generate_ARB_draw_buffers_variables T Const false _mesa_glsl_parser_targets.vertex_shader

/-- The function `generate_120_vs_variables` (lines 184-192). -/
def generate_120_vs_variables (T : builtin_tables) (Const : gl_constants) : Exec Unit :=
  generate_110_vs_variables T Const

/-- The function `generate_130_vs_variables` (lines 195-217). -/
def generate_130_vs_variables (T : builtin_tables) (Const : gl_constants) : Exec Unit := do
  generate_120_vs_variables T Const
  add_builtin_variables T.builtin_130_vs_variables
  let clip_distance_array_type ← glsl_type.get_array_instance (some glsl_type.float_type) 8
  let _ ← add_variable "gl_ClipDistance" ir_variable_mode.ir_var_out (-1)
    clip_distance_array_type
  pure ()

/-- The function `initialize_vs_variables` (lines 220-236): a `switch` without `default`. -/
def initialize_vs_variables (T : builtin_tables) (state : _mesa_glsl_parse_state) :
    Exec Unit :=
  if state.language_version = 110 then generate_110_vs_variables T state.Const
  else if state.language_version = 120 then generate_120_vs_variables T state.Const
  else if state.language_version = 130 then generate_130_vs_variables T state.Const
  else pure ()

/-- The function `generate_110_fs_variables` (lines 238-271). -/
def generate_110_fs_variables (T : builtin_tables) (Const : gl_constants) : Exec Unit := do
  add_builtin_variables T.builtin_core_fs_variables
  add_builtin_variables T.builtin_110_deprecated_fs_variables
  generate_110_uniforms T Const
  let vec4_array_type ← glsl_type.get_array_instance (some glsl_type.vec4_type) 0
  let _ ← add_variable "gl_TexCoord" ir_variable_mode.ir_var_in T.FRAG_ATTRIB_TEX0
    vec4_array_type
  generate_ARB_draw_buffers_variables T Const false _mesa_glsl_parser_targets.fragment_shader

/-- The function `generate_120_fs_variables` (lines 309-321). -/
def generate_120_fs_variables (T : builtin_tables) (Const : gl_constants) : Exec Unit := do
  generate_110_fs_variables T Const
  add_builtin_variables T.builtin_120_fs_variables

/-- The function `generate_130_fs_variables` (lines 323-339). -/
def generate_130_fs_variables (T : builtin_tables) (Const : gl_constants) : Exec Unit := do
  generate_120_fs_variables T Const
  let clip_distance_array_type ← glsl_type.get_array_instance (some glsl_type.float_type) 8
  let _ ← add_variable "gl_ClipDistance" ir_variable_mode.ir_var_in (-1)
    clip_distance_array_type
  pure ()

/-- The function `initialize_fs_variables` (lines 341-357): a `switch` without `default`. -/
def initialize_fs_variables (T : builtin_tables) (state : _mesa_glsl_parse_state) :
    Exec Unit :=
  if state.language_version = 110 then generate_110_fs_variables T state.Const
  else if state.language_version = 120 then generate_120_fs_variables T state.Const
  else if state.language_version = 130 then generate_130_fs_variables T state.Const
  else pure ()

/-- The function `_mesa_glsl_initialize_variables` (lines 359-377). -/
def _mesa_glsl_initialize_variables (T : builtin_tables) (state : _mesa_glsl_parse_state) :
    Exec Unit :=
  match state.target with
  | _mesa_glsl_parser_targets.vertex_shader => initialize_vs_variables T state
  | _mesa_glsl_parser_targets.geometry_shader => pure ()
  | _mesa_glsl_parser_targets.fragment_shader => initialize_fs_variables T state
  | _mesa_glsl_parser_targets.ir_shader => die fatal_error.no_builtin_variables

/-! ## Reference semantics used in the proofs

Every generator is a straight line of declarations, so its effect is that of
registering a list of declaration requests one after the other. -/

/-- The qualifier flags `(read_only, shader_in, shader_out)` that the `switch` of
`add_variable` leaves on a fresh node, per mode; `none` for a mode that reaches
`default:`. -/
def mode_flags : ir_variable_mode → Option (Bool × Bool × Bool)
  | ir_variable_mode.ir_var_auto => some (true, false, false)
  | ir_variable_mode.ir_var_in => some (true, true, false)
  | ir_variable_mode.ir_var_out => some (false, false, true)
  | ir_variable_mode.ir_var_inout => some (false, true, true)
  | ir_variable_mode.ir_var_uniform => some (true, true, false)
  | ir_variable_mode.unrecognized _ => none

/-- One declaration request: the arguments of an `add_variable` call (the type handle
may be null), and the constant and warning tag written to the node afterwards. -/
structure decl where
  name : String
  mode : ir_variable_mode
  slot : Int
  type : Option glsl_type
  constant : Option ir_constant
  warn : Option String

/-- The node as `add_variable` pushes it. -/
def decl.bare (d : decl) (t : glsl_type) : ir_variable :=
  { name := d.name
    type := t
    mode := d.mode
    read_only := ((mode_flags d.mode).getD (false, false, false)).1
    shader_in := ((mode_flags d.mode).getD (false, false, false)).2.1
    shader_out := ((mode_flags d.mode).getD (false, false, false)).2.2
    location := d.slot
    constant_value := none
    warn_extension := none }

/-- The node once the caller has attached the constant and the warning tag. -/
def decl.node (d : decl) (t : glsl_type) : ir_variable :=
  { d.bare t with constant_value := d.constant, warn_extension := d.warn }

/-- Registering one declaration: the null-type and mode checks come before the push,
the symbol-table insertion after it. -/
def run_decl (d : decl) : Exec Unit := fun w =>
  match d.type with
  | none => (Outcome.fatal fatal_error.type_not_found, w)
  | some t =>
    match mode_flags d.mode with
    | none => (Outcome.fatal fatal_error.unrecognized_mode, w)
    | some _ =>
      match w.symbols.get_variable d.name with
      | some _ =>
        (Outcome.fatal fatal_error.duplicate_symbol,
          { w with instructions := w.instructions ++ [d.bare t] })
      | none =>
        (Outcome.returned (),
          { instructions := w.instructions ++ [d.node t]
            symbols :=
              { w.symbols with
                bindings := (d.name, w.instructions.length) :: w.symbols.bindings } })

/-- Registering a list of declarations in order, stopping at the first fatal error. -/
def run_decls : List decl → Exec Unit
  | [] => pure ()
  | d :: rest => do
    run_decl d
    run_decls rest

/-- The declaration made by `add_builtin_variable` for one table row. -/
def decl_of_proto (types : List (String × glsl_type)) (proto : builtin_variable) : decl :=
  { name := proto.name
    mode := proto.mode
    slot := proto.slot
    type := assoc_find proto.type types
    constant := none
    warn := none }

/-- The declarations of `generate_ARB_draw_buffers_variables`. -/
def decls_ARB_draw_buffers (T : builtin_tables) (Const : gl_constants) (warn : Bool)
    (target : _mesa_glsl_parser_targets) : List decl :=
  { name := "gl_MaxDrawBuffers"
    mode := ir_variable_mode.ir_var_auto
    slot := -1
    type := some glsl_type.int_type
    constant := some (ir_constant.int (int_cast Const.MaxDrawBuffers))
    warn := if warn then some "GL_ARB_draw_buffers" else none } ::
  (if target = _mesa_glsl_parser_targets.fragment_shader then
    [{ name := "gl_FragData"
       mode := ir_variable_mode.ir_var_out
       slot := T.FRAG_RESULT_DATA0
       type := some (glsl_type.array glsl_type.vec4_type Const.MaxDrawBuffers)
       constant := none
       warn := if warn then some "GL_ARB_draw_buffers" else none }]
  else [])

/-- The type built at lines 134-136 for `gl_LightSource`: the array of length 8 over
the handle that the registry gives for `gl_LightSourceParameters`, null or not. -/
def light_source_array_type (types : List (String × glsl_type)) : glsl_type :=
  match assoc_find "gl_LightSourceParameters" types with
  | some t => glsl_type.array t 8
  | none => glsl_type.array_of_null 8

/-- The three hard-coded declarations of `generate_110_uniforms`. -/
def decls_hard_coded_uniforms (Const : gl_constants) (types : List (String × glsl_type)) :
    List decl :=
  [{ name := "gl_MaxTextureCoords"
     mode := ir_variable_mode.ir_var_auto
     slot := -1
     type := some glsl_type.int_type
     constant := some (ir_constant.int (int_cast Const.MaxTextureCoords))
     warn := none },
   { name := "gl_TextureMatrix"
     mode := ir_variable_mode.ir_var_uniform
     slot := -1
     type := some (glsl_type.array glsl_type.mat4_type Const.MaxTextureCoords)
     constant := none
     warn := none },
   { name := "gl_LightSource"
     mode := ir_variable_mode.ir_var_uniform
     slot := -1
     type := some (light_source_array_type types)
     constant := none
     warn := none }]

/-- The declarations of `generate_110_uniforms`. -/
def decls_110_uniforms (T : builtin_tables) (Const : gl_constants)
    (types : List (String × glsl_type)) : List decl :=
  T.builtin_110_deprecated_uniforms.map (decl_of_proto types) ++
    decls_hard_coded_uniforms Const types

/-- The declaration of `gl_TexCoord`, an unsized array of `vec4`. -/
def decl_TexCoord (mode : ir_variable_mode) (slot : Int) : decl :=
  { name := "gl_TexCoord"
    mode := mode
    slot := slot
    type := some (glsl_type.array glsl_type.vec4_type 0)
    constant := none
    warn := none }

/-- The declaration of `gl_ClipDistance`, an array of eight `float`. -/
def decl_ClipDistance (mode : ir_variable_mode) : decl :=
  { name := "gl_ClipDistance"
    mode := mode
    slot := -1
    type := some (glsl_type.array glsl_type.float_type 8)
    constant := none
    warn := none }

/-- The declarations of `generate_110_vs_variables`. -/
def decls_110_vs (T : builtin_tables) (Const : gl_constants)
    (types : List (String × glsl_type)) : List decl :=
  T.builtin_core_vs_variables.map (decl_of_proto types) ++
    (T.builtin_110_deprecated_vs_variables.map (decl_of_proto types) ++
      (decls_110_uniforms T Const types ++
        (decl_TexCoord ir_variable_mode.ir_var_out T.VERT_RESULT_TEX0 ::
          decls_ARB_draw_buffers T Const false _mesa_glsl_parser_targets.vertex_shader)))

/-- The declarations that `generate_130_vs_variables` makes after those of version 120. -/
def decls_130_vs_extra (T : builtin_tables) (types : List (String × glsl_type)) : List decl :=
  T.builtin_130_vs_variables.map (decl_of_proto types) ++
    [decl_ClipDistance ir_variable_mode.ir_var_out]

/-- The declarations of `generate_110_fs_variables`. -/
def decls_110_fs (T : builtin_tables) (Const : gl_constants)
    (types : List (String × glsl_type)) : List decl :=
  T.builtin_core_fs_variables.map (decl_of_proto types) ++
    (T.builtin_110_deprecated_fs_variables.map (decl_of_proto types) ++
      (decls_110_uniforms T Const types ++
        (decl_TexCoord ir_variable_mode.ir_var_in T.FRAG_ATTRIB_TEX0 ::
          decls_ARB_draw_buffers T Const false _mesa_glsl_parser_targets.fragment_shader)))

/-- The declarations that `generate_120_fs_variables` makes after those of version 110. -/
def decls_120_fs_extra (T : builtin_tables) (types : List (String × glsl_type)) : List decl :=
  T.builtin_120_fs_variables.map (decl_of_proto types)

/-- The declarations of `initialize_vs_variables`, per language version. -/
def decls_vs (T : builtin_tables) (state : _mesa_glsl_parse_state)
    (types : List (String × glsl_type)) : List decl :=
  if state.language_version = 110 then decls_110_vs T state.Const types
  else if state.language_version = 120 then decls_110_vs T state.Const types
  else if state.language_version = 130 then
    decls_110_vs T state.Const types ++ decls_130_vs_extra T types
  else []

/-- The declarations of `initialize_fs_variables`, per language version. -/
def decls_fs (T : builtin_tables) (state : _mesa_glsl_parse_state)
    (types : List (String × glsl_type)) : List decl :=
  if state.language_version = 110 then decls_110_fs T state.Const types
  else if state.language_version = 120 then
    decls_110_fs T state.Const types ++ decls_120_fs_extra T types
  else if state.language_version = 130 then
    (decls_110_fs T state.Const types ++ decls_120_fs_extra T types) ++
      [decl_ClipDistance ir_variable_mode.ir_var_in]
  else []

/-- The declarations of `_mesa_glsl_initialize_variables` for the targets that return. -/
def decls_of (T : builtin_tables) (state : _mesa_glsl_parse_state)
    (types : List (String × glsl_type)) : List decl :=
  match state.target with
  | _mesa_glsl_parser_targets.vertex_shader => decls_vs T state types
  | _mesa_glsl_parser_targets.fragment_shader => decls_fs T state types
  | _ => []

/-- The names bound in the variable name space of the symbol table. -/
def registered_names (w : compile_unit) : List String :=
  w.symbols.bindings.map Prod.fst

/-- The names of the declarations in the instruction list, in order.  Every node is
pushed right before its name is passed to the symbol table, so this is also the
sequence of names passed to the symbol table. -/
def declared_names (w : compile_unit) : List String :=
  w.instructions.map ir_variable.name

/-- The node a name resolves to: look the name up in the symbol table and follow the
reference into the instruction list. -/
def lookup_variable (w : compile_unit) (name : String) : Option ir_variable :=
  match w.symbols.get_variable name with
  | some ref => w.instructions[ref]?
  | none => none

/-! ## Definitions used in the statements -/

/-- The node that `add_variable` builds and pushes. -/
def declared (name : String) (mode : ir_variable_mode) (slot : Int) (type : glsl_type) :
    ir_variable :=
  { name := name
    type := type
    mode := mode
    read_only := ((mode_flags mode).getD (false, false, false)).1
    shader_in := ((mode_flags mode).getD (false, false, false)).2.1
    shader_out := ((mode_flags mode).getD (false, false, false)).2.2
    location := slot
    constant_value := none
    warn_extension := none }

/-- What `add_variable` is claimed to do for one mode: the node `var` it builds carries
the given flags, mode, slot, name and type; it is the new last instruction; the
reference returned designates it; and the call returns when the name is not bound yet. -/
def add_variable_gives (name : String) (mode : ir_variable_mode) (slot : Int)
    (type : glsl_type) (w : compile_unit) (read_only shader_in shader_out : Bool) : Prop :=
  ∃ var : ir_variable,
    var.read_only = read_only ∧ var.shader_in = shader_in ∧ var.shader_out = shader_out ∧
    var.mode = mode ∧ var.location = slot ∧ var.name = name ∧ var.type = type ∧
    (add_variable name mode slot type w).2.instructions = w.instructions ++ [var] ∧
    (∀ ref, (add_variable name mode slot type w).1 = Outcome.returned ref →
      (add_variable name mode slot type w).2.instructions[ref]? = some var) ∧
    (w.symbols.get_variable name = none →
      (add_variable name mode slot type w).1 = Outcome.returned w.instructions.length)

/-- The rows of the static tables that a (stage, version) pair instantiates, in the
order of instantiation. -/
def tables_used (T : builtin_tables) (state : _mesa_glsl_parse_state) :
    List builtin_variable :=
  match state.target with
  | _mesa_glsl_parser_targets.vertex_shader =>
    if state.language_version = 110 ∨ state.language_version = 120 then
      T.builtin_core_vs_variables ++ T.builtin_110_deprecated_vs_variables ++
        T.builtin_110_deprecated_uniforms
    else if state.language_version = 130 then
      T.builtin_core_vs_variables ++ T.builtin_110_deprecated_vs_variables ++
        T.builtin_110_deprecated_uniforms ++ T.builtin_130_vs_variables
    else []
  | _mesa_glsl_parser_targets.fragment_shader =>
    if state.language_version = 110 then
      T.builtin_core_fs_variables ++ T.builtin_110_deprecated_fs_variables ++
        T.builtin_110_deprecated_uniforms
    else if state.language_version = 120 ∨ state.language_version = 130 then
      T.builtin_core_fs_variables ++ T.builtin_110_deprecated_fs_variables ++
        T.builtin_110_deprecated_uniforms ++ T.builtin_120_fs_variables
    else []
  | _ => []

/-- The names that a (stage, version) pair declares, in the order of declaration. -/
def builtin_names (T : builtin_tables) (state : _mesa_glsl_parse_state) : List String :=
  (decls_of T state []).map decl.name

/-- The names of the rows of the static tables that a stage uses. -/
def stage_table_names (T : builtin_tables) (target : _mesa_glsl_parser_targets) :
    List String :=
  match target with
  | _mesa_glsl_parser_targets.vertex_shader =>
    (T.builtin_core_vs_variables ++ T.builtin_110_deprecated_vs_variables ++
      T.builtin_110_deprecated_uniforms ++ T.builtin_130_vs_variables).map
        builtin_variable.name
  | _mesa_glsl_parser_targets.fragment_shader =>
    (T.builtin_core_fs_variables ++ T.builtin_110_deprecated_fs_variables ++
      T.builtin_110_deprecated_uniforms ++ T.builtin_120_fs_variables).map
        builtin_variable.name
  | _ => []

/-- The names of the hard-coded declarations. -/
def hard_coded_names : List String :=
  ["gl_MaxTextureCoords", "gl_TextureMatrix", "gl_LightSource", "gl_TexCoord",
    "gl_MaxDrawBuffers", "gl_FragData", "gl_ClipDistance"]

/-- A small instance of the tables, for concrete runs. -/
def example_tables : builtin_tables :=
  { builtin_core_vs_variables := [⟨"gl_Position", ir_variable_mode.ir_var_out, 0, "vec4"⟩]
    builtin_core_fs_variables := [⟨"gl_FragCoord", ir_variable_mode.ir_var_in, 0, "vec4"⟩]
    builtin_110_deprecated_fs_variables :=
      [⟨"gl_FragColor", ir_variable_mode.ir_var_out, 1, "vec4"⟩]
    builtin_110_deprecated_vs_variables :=
      [⟨"gl_Vertex", ir_variable_mode.ir_var_in, 0, "vec4"⟩]
    builtin_120_fs_variables := [⟨"gl_PointCoord", ir_variable_mode.ir_var_in, 3, "vec2"⟩]
    builtin_110_deprecated_uniforms :=
      [⟨"gl_ModelViewMatrix", ir_variable_mode.ir_var_uniform, -1, "mat4"⟩]
    builtin_130_vs_variables := [⟨"gl_VertexID", ir_variable_mode.ir_var_in, -1, "int"⟩]
    VERT_RESULT_TEX0 := 4
    FRAG_ATTRIB_TEX0 := 4
    FRAG_RESULT_DATA0 := 2 }

/-- A compile unit without instructions or variables, whose registry knows the types
the example tables name. -/
def example_unit : compile_unit :=
  { instructions := []
    symbols :=
      { bindings := []
        types :=
          [("int", glsl_type.int_type), ("vec2", glsl_type.named "vec2"),
            ("vec4", glsl_type.vec4_type), ("mat4", glsl_type.mat4_type),
            ("gl_LightSourceParameters", glsl_type.named "gl_LightSourceParameters")] } }

/-- A compile unit without instructions or variables and with an empty type registry. -/
def empty_unit : compile_unit :=
  { instructions := [], symbols := { bindings := [], types := [] } }

/-- The finished node of a declaration, when its type handle is not null. -/
def decl.finished (d : decl) : Option ir_variable :=
  d.type.map d.node

/-- The node that `add_builtin_variable` makes of a table row, when the registry has
the type the row names. -/
def builtin_node (types : List (String × glsl_type)) (proto : builtin_variable) :
    Option ir_variable :=
  (assoc_find proto.type types).map (declared proto.name proto.mode proto.slot)

/-- The insertions made into the variable name space, oldest first: each is a name
and the reference of the node inserted under it. -/
def insertions (w : compile_unit) : List (String × Nat) :=
  w.symbols.bindings.reverse

/-- The instruction list, each node with its position, seen as the insertions that
bind every node under its own name. -/
def own_name_insertions (w : compile_unit) : List (String × Nat) :=
  w.instructions.enum.map (fun p => (p.2.name, p.1))

theorem pure_apply {α : Type} (a : α) (w : compile_unit) :
    (pure a : Exec α) w = (Outcome.returned a, w) := rfl

theorem bind_apply {α β : Type} (x : Exec α) (f : α → Exec β) (w : compile_unit) :
    (x >>= f) w = Exec.bind x f w := rfl

theorem bind_of_returned {α β : Type} (x : Exec α) (f : α → Exec β) (w w1 : compile_unit)
    (a : α) (h : x w = (Outcome.returned a, w1)) : Exec.bind x f w = f a w1 := by
  simp [Exec.bind, h]

theorem bind_of_fatal {α β : Type} (x : Exec α) (f : α → Exec β) (w w1 : compile_unit)
    (e : fatal_error) (h : x w = (Outcome.fatal e, w1)) :
    Exec.bind x f w = (Outcome.fatal e, w1) := by
  simp [Exec.bind, h]

theorem modify_nth_length (f : ir_variable → ir_variable) (l : List ir_variable)
    (v : ir_variable) : modify_nth f l.length (l ++ [v]) = l ++ [f v] := by
  induction l with
  | nil => rfl
  | cons a l ih => simp [modify_nth, ih]

theorem modify_nth_append (f : ir_variable → ir_variable) (l r : List ir_variable)
    (k : Nat) : modify_nth f (l.length + k) (l ++ r) = l ++ modify_nth f k r := by
  induction l with
  | nil => simp
  | cons a l ih =>
    have : (a :: l).length + k = (l.length + k) + 1 := by simp; omega
    rw [this]
    simp [modify_nth, ih]

/-- What `add_variable` does, for a mode the `switch` knows. -/
theorem add_variable_eq (name : String) (mode : ir_variable_mode) (slot : Int)
    (type : glsl_type) (w : compile_unit) (hm : (mode_flags mode).isSome = true) :
    add_variable name mode slot type w =
      match w.symbols.get_variable name with
      | some _ =>
        (Outcome.fatal fatal_error.duplicate_symbol,
          { w with instructions := w.instructions ++ [declared name mode slot type] })
      | none =>
        (Outcome.returned w.instructions.length,
          { instructions := w.instructions ++ [declared name mode slot type]
            symbols :=
              { w.symbols with
                bindings := (name, w.instructions.length) :: w.symbols.bindings } }) := by
  cases mode <;> simp only [mode_flags, Option.isSome, reduceCtorEq] at hm <;>
    (cases h : w.symbols.get_variable name <;>
      simp [add_variable, bind_apply, Exec.bind, pure_apply, exec_list.push_tail,
        glsl_symbol_table.add_variable, ir_variable.ctor, h, glsl_symbol_table.get_variable,
        die, declared, mode_flags] <;> simp_all [glsl_symbol_table.get_variable])

theorem add_variable_unrecognized (name : String) (raw : Nat) (slot : Int)
    (type : glsl_type) (w : compile_unit) :
    add_variable name (ir_variable_mode.unrecognized raw) slot type w =
      (Outcome.fatal fatal_error.unrecognized_mode, w) := by
  simp [add_variable, bind_apply, Exec.bind, die]

theorem get_array_instance_some (t : glsl_type) (n : Nat) (w : compile_unit) :
    glsl_type.get_array_instance (some t) n w = (Outcome.returned (glsl_type.array t n), w) :=
  rfl

theorem run_decls_nil (w : compile_unit) : run_decls [] w = (Outcome.returned (), w) := rfl

theorem run_decls_cons (d : decl) (L : List decl) (w : compile_unit) :
    run_decls (d :: L) w = Exec.bind (run_decl d) (fun _ => run_decls L) w := rfl

theorem run_decl_types (d : decl) (w : compile_unit) :
    (run_decl d w).2.symbols.types = w.symbols.types := by
  unfold run_decl
  split
  · rfl
  · split
    · rfl
    · split <;> rfl

theorem exec_bind_cases {α β : Type} (x : Exec α) (f : α → Exec β) (w : compile_unit) :
    (∃ a, x w = (Outcome.returned a, (x w).2) ∧ Exec.bind x f w = f a (x w).2) ∨
    (∃ e, x w = (Outcome.fatal e, (x w).2) ∧ Exec.bind x f w = (Outcome.fatal e, (x w).2)) := by
  rcases h : x w with ⟨o, w1⟩
  cases o with
  | returned a => exact Or.inl ⟨a, rfl, by simp [Exec.bind, h]⟩
  | fatal e => exact Or.inr ⟨e, rfl, by simp [Exec.bind, h]⟩

theorem run_decls_types (L : List decl) (w : compile_unit) :
    (run_decls L w).2.symbols.types = w.symbols.types := by
  induction L generalizing w with
  | nil => rfl
  | cons d L ih =>
    rw [run_decls_cons]
    rcases exec_bind_cases (run_decl d) (fun _ => run_decls L) w with ⟨a, _, h2⟩ | ⟨e, _, h2⟩
    · rw [h2, ih, run_decl_types]
    · rw [h2]; exact run_decl_types d w

theorem run_decls_append (L1 L2 : List decl) (w : compile_unit) :
    run_decls (L1 ++ L2) w = Exec.bind (run_decls L1) (fun _ => run_decls L2) w := by
  induction L1 generalizing w with
  | nil => rfl
  | cons d L ih =>
    rw [List.cons_append, run_decls_cons]
    have hc : run_decls (d :: L) = Exec.bind (run_decl d) (fun _ => run_decls L) := rfl
    rcases h : run_decl d w with ⟨o, w1⟩
    cases o with
    | returned a =>
      rw [bind_of_returned _ _ _ _ _ h, ih]
      simp [Exec.bind, hc, h]
    | fatal e =>
      simp [Exec.bind, hc, h]

theorem add_builtin_variable_eq (proto : builtin_variable) (w : compile_unit) :
    add_builtin_variable proto w = run_decl (decl_of_proto w.symbols.types proto) w := by
  unfold add_builtin_variable run_decl decl_of_proto glsl_symbol_table.get_type
  cases ht : assoc_find proto.type w.symbols.types with
  | none => rfl
  | some t =>
    cases hm : mode_flags proto.mode with
    | none =>
      cases hmode : proto.mode <;> simp [hmode, mode_flags] at hm
      simp [bind_apply, Exec.bind, add_variable_unrecognized, hmode, mode_flags]
    | some fl =>
      simp only [bind_apply, Exec.bind, add_variable_eq _ _ _ _ _ (by rw [hm]; rfl)]
      cases hv : w.symbols.get_variable proto.name <;>
        simp [hm, decl.bare, decl.node, pure_apply, declared]

theorem add_builtin_variables_eq (table : List builtin_variable) (w : compile_unit) :
    add_builtin_variables table w = run_decls (table.map (decl_of_proto w.symbols.types)) w := by
  induction table generalizing w with
  | nil => rfl
  | cons p table ih =>
    show Exec.bind (add_builtin_variable p) (fun _ => add_builtin_variables table) w = _
    rw [List.map_cons, run_decls_cons]
    have hp : add_builtin_variable p w = run_decl (decl_of_proto w.symbols.types p) w :=
      add_builtin_variable_eq p w
    rcases h : run_decl (decl_of_proto w.symbols.types p) w with ⟨o, w1⟩
    have hty : w1.symbols.types = w.symbols.types := by
      have := run_decl_types (decl_of_proto w.symbols.types p) w
      rw [h] at this
      exact this
    cases o with
    | returned a =>
      rw [bind_of_returned _ _ _ _ _ h, bind_of_returned _ _ _ _ _ (hp.trans h), ih, hty]
    | fatal e =>
      rw [bind_of_fatal _ _ _ _ _ h, bind_of_fatal _ _ _ _ _ (hp.trans h)]

theorem generate_ARB_draw_buffers_variables_eq (T : builtin_tables) (Const : gl_constants)
    (warn : Bool) (target : _mesa_glsl_parser_targets) (w : compile_unit) :
    generate_ARB_draw_buffers_variables T Const warn target w =
      run_decls (decls_ARB_draw_buffers T Const warn target) w := by
  cases hv : assoc_find "gl_MaxDrawBuffers" w.symbols.bindings <;>
    cases hv2 : assoc_find "gl_FragData" w.symbols.bindings <;>
    cases warn <;> cases target <;>
    simp [generate_ARB_draw_buffers_variables, decls_ARB_draw_buffers, run_decls_cons,
      run_decls_nil, run_decl, bind_apply, Exec.bind, add_variable_eq, hv, hv2,
      mode_flags, update_node, modify_nth_length, pure_apply, get_array_instance_some,
      decl.bare, decl.node, declared, glsl_symbol_table.get_variable, assoc_find,
      modify_nth_append, modify_nth]

theorem exec_bind_congr {α β : Type} (x y : Exec α) (f g : α → Exec β) (w : compile_unit)
    (hxy : x w = y w)
    (hfg : ∀ a w1, y w = (Outcome.returned a, w1) → f a w1 = g a w1) :
    Exec.bind x f w = Exec.bind y g w := by
  rcases h : y w with ⟨o, w1⟩
  cases o with
  | returned a =>
    rw [bind_of_returned _ _ _ _ _ h, bind_of_returned _ _ _ _ _ (hxy.trans h)]
    exact hfg a w1 h
  | fatal e =>
    rw [bind_of_fatal _ _ _ _ _ h, bind_of_fatal _ _ _ _ _ (hxy.trans h)]

theorem run_decls_types_of_eq (L : List decl) (w w1 : compile_unit) (o : Outcome Unit)
    (h : run_decls L w = (o, w1)) : w1.symbols.types = w.symbols.types := by
  have := run_decls_types L w
  rw [h] at this
  exact this

theorem generate_110_uniforms_eq (T : builtin_tables) (Const : gl_constants)
    (w : compile_unit) :
    generate_110_uniforms T Const w = run_decls (decls_110_uniforms T Const w.symbols.types) w := by
  unfold generate_110_uniforms decls_110_uniforms
  rw [bind_apply, run_decls_append]
  apply exec_bind_congr _ _ _ _ _ (add_builtin_variables_eq _ w)
  intro a w1 h
  rw [← run_decls_types_of_eq _ _ _ _ h]
  cases h1 : assoc_find "gl_MaxTextureCoords" w1.symbols.bindings <;>
    cases h2 : assoc_find "gl_TextureMatrix" w1.symbols.bindings <;>
    cases h3 : assoc_find "gl_LightSource" w1.symbols.bindings <;>
    cases h4 : assoc_find "gl_LightSourceParameters" w1.symbols.types <;>
    simp [decls_hard_coded_uniforms, run_decls_cons,
      run_decls_nil, run_decl, bind_apply, Exec.bind, add_variable_eq, h1, h2, h3, h4,
      mode_flags, update_node, modify_nth_length, pure_apply, get_array_instance_some,
      decl.bare, decl.node, declared, glsl_symbol_table.get_variable, assoc_find,
      modify_nth_append, glsl_symbol_table.get_type, glsl_type.get_array_instance, die,
      light_source_array_type]

theorem TexCoord_then_draw_buffers_eq (T : builtin_tables) (Const : gl_constants)
    (mode : ir_variable_mode) (slot : Int) (target : _mesa_glsl_parser_targets)
    (hm : (mode_flags mode).isSome = true) (w : compile_unit) :
    (glsl_type.get_array_instance (some glsl_type.vec4_type) 0 >>= fun vec4_array_type =>
      add_variable "gl_TexCoord" mode slot vec4_array_type >>= fun _ =>
        generate_ARB_draw_buffers_variables T Const false target) w =
      run_decls (decl_TexCoord mode slot :: decls_ARB_draw_buffers T Const false target) w := by
  obtain ⟨fl, hfl⟩ := Option.isSome_iff_exists.mp hm
  cases h1 : assoc_find "gl_TexCoord" w.symbols.bindings <;>
    simp [run_decls_cons, run_decl, bind_apply, Exec.bind, add_variable_eq, hm, h1, hfl,
      get_array_instance_some, decl.bare, decl.node, declared, decl_TexCoord,
      glsl_symbol_table.get_variable, generate_ARB_draw_buffers_variables_eq]

theorem ClipDistance_eq (mode : ir_variable_mode) (hm : (mode_flags mode).isSome = true)
    (w : compile_unit) :
    (glsl_type.get_array_instance (some glsl_type.float_type) 8 >>= fun t =>
      add_variable "gl_ClipDistance" mode (-1) t >>= fun _ => (pure () : Exec Unit)) w =
      run_decls [decl_ClipDistance mode] w := by
  obtain ⟨fl, hfl⟩ := Option.isSome_iff_exists.mp hm
  cases h1 : assoc_find "gl_ClipDistance" w.symbols.bindings <;>
    simp [run_decls_cons, run_decls_nil, run_decl, bind_apply, Exec.bind, add_variable_eq, hm,
      h1, hfl, get_array_instance_some, decl.bare, decl.node, declared, decl_ClipDistance,
      glsl_symbol_table.get_variable, pure_apply]

theorem generate_110_vs_variables_eq (T : builtin_tables) (Const : gl_constants)
    (w : compile_unit) :
    generate_110_vs_variables T Const w = run_decls (decls_110_vs T Const w.symbols.types) w := by
  unfold generate_110_vs_variables decls_110_vs
  rw [bind_apply, run_decls_append]
  apply exec_bind_congr _ _ _ _ _ (add_builtin_variables_eq _ w)
  intro _ w1 h1
  have t1 := run_decls_types_of_eq _ _ _ _ h1
  rw [← t1, bind_apply, run_decls_append]
  apply exec_bind_congr _ _ _ _ _ (add_builtin_variables_eq _ w1)
  intro _ w2 h2
  have t2 := run_decls_types_of_eq _ _ _ _ h2
  rw [← t2, bind_apply, run_decls_append]
  apply exec_bind_congr _ _ _ _ _ (generate_110_uniforms_eq _ _ w2)
  intro _ w3 _
  exact TexCoord_then_draw_buffers_eq T Const ir_variable_mode.ir_var_out _ _ rfl w3

theorem generate_110_fs_variables_eq (T : builtin_tables) (Const : gl_constants)
    (w : compile_unit) :
    generate_110_fs_variables T Const w = run_decls (decls_110_fs T Const w.symbols.types) w := by
  unfold generate_110_fs_variables decls_110_fs
  rw [bind_apply, run_decls_append]
  apply exec_bind_congr _ _ _ _ _ (add_builtin_variables_eq _ w)
  intro _ w1 h1
  have t1 := run_decls_types_of_eq _ _ _ _ h1
  rw [← t1, bind_apply, run_decls_append]
  apply exec_bind_congr _ _ _ _ _ (add_builtin_variables_eq _ w1)
  intro _ w2 h2
  have t2 := run_decls_types_of_eq _ _ _ _ h2
  rw [← t2, bind_apply, run_decls_append]
  apply exec_bind_congr _ _ _ _ _ (generate_110_uniforms_eq _ _ w2)
  intro _ w3 _
  exact TexCoord_then_draw_buffers_eq T Const ir_variable_mode.ir_var_in _ _ rfl w3

theorem generate_130_vs_variables_eq (T : builtin_tables) (Const : gl_constants)
    (w : compile_unit) :
    generate_130_vs_variables T Const w =
      run_decls (decls_110_vs T Const w.symbols.types ++ decls_130_vs_extra T w.symbols.types)
        w := by
  unfold generate_130_vs_variables generate_120_vs_variables decls_130_vs_extra
  rw [bind_apply, run_decls_append]
  apply exec_bind_congr _ _ _ _ _ (generate_110_vs_variables_eq _ _ w)
  intro _ w1 h1
  have t1 := run_decls_types_of_eq _ _ _ _ h1
  rw [← t1, bind_apply, run_decls_append]
  apply exec_bind_congr _ _ _ _ _ (add_builtin_variables_eq _ w1)
  intro _ w2 _
  exact ClipDistance_eq ir_variable_mode.ir_var_out rfl w2

theorem generate_120_fs_variables_eq (T : builtin_tables) (Const : gl_constants)
    (w : compile_unit) :
    generate_120_fs_variables T Const w =
      run_decls (decls_110_fs T Const w.symbols.types ++ decls_120_fs_extra T w.symbols.types)
        w := by
  unfold generate_120_fs_variables decls_120_fs_extra
  rw [bind_apply, run_decls_append]
  apply exec_bind_congr _ _ _ _ _ (generate_110_fs_variables_eq _ _ w)
  intro _ w1 h1
  have t1 := run_decls_types_of_eq _ _ _ _ h1
  rw [← t1]
  exact add_builtin_variables_eq _ w1

theorem generate_130_fs_variables_eq (T : builtin_tables) (Const : gl_constants)
    (w : compile_unit) :
    generate_130_fs_variables T Const w =
      run_decls ((decls_110_fs T Const w.symbols.types ++
        decls_120_fs_extra T w.symbols.types) ++
          [decl_ClipDistance ir_variable_mode.ir_var_in]) w := by
  unfold generate_130_fs_variables
  rw [bind_apply, run_decls_append]
  apply exec_bind_congr _ _ _ _ _ (generate_120_fs_variables_eq _ _ w)
  intro _ w1 _
  exact ClipDistance_eq ir_variable_mode.ir_var_in rfl w1

theorem initialize_vs_variables_eq (T : builtin_tables) (state : _mesa_glsl_parse_state)
    (w : compile_unit) :
    initialize_vs_variables T state w = run_decls (decls_vs T state w.symbols.types) w := by
  unfold initialize_vs_variables decls_vs
  split_ifs
  · exact generate_110_vs_variables_eq T state.Const w
  · exact generate_110_vs_variables_eq T state.Const w
  · exact generate_130_vs_variables_eq T state.Const w
  · rfl

theorem initialize_fs_variables_eq (T : builtin_tables) (state : _mesa_glsl_parse_state)
    (w : compile_unit) :
    initialize_fs_variables T state w = run_decls (decls_fs T state w.symbols.types) w := by
  unfold initialize_fs_variables decls_fs
  split_ifs
  · exact generate_110_fs_variables_eq T state.Const w
  · exact generate_120_fs_variables_eq T state.Const w
  · exact generate_130_fs_variables_eq T state.Const w
  · rfl

/-- Every target except `ir_shader` runs the declarations of `decls_of`. -/
theorem initialize_variables_eq (T : builtin_tables) (state : _mesa_glsl_parse_state)
    (w : compile_unit) (h : state.target ≠ _mesa_glsl_parser_targets.ir_shader) :
    _mesa_glsl_initialize_variables T state w =
      run_decls (decls_of T state w.symbols.types) w := by
  unfold _mesa_glsl_initialize_variables decls_of
  cases ht : state.target with
  | vertex_shader => exact initialize_vs_variables_eq T state w
  | geometry_shader => rfl
  | fragment_shader => exact initialize_fs_variables_eq T state w
  | ir_shader => exact absurd ht h

/-! ## Facts about registering declarations -/

theorem run_decl_returned (d : decl) (w : compile_unit)
    (h : (run_decl d w).1 = Outcome.returned ()) :
    ∃ t, d.type = some t ∧ (mode_flags d.mode).isSome = true ∧
      w.symbols.get_variable d.name = none ∧
      (run_decl d w).2 =
        { instructions := w.instructions ++ [d.node t]
          symbols :=
            { w.symbols with
              bindings := (d.name, w.instructions.length) :: w.symbols.bindings } } := by
  unfold run_decl at h ⊢
  cases ht : d.type with
  | none => simp [ht] at h
  | some t =>
    cases hm : mode_flags d.mode with
    | none => simp [ht, hm] at h
    | some fl =>
      cases hv : w.symbols.get_variable d.name with
      | some r => simp [ht, hm, hv] at h
      | none => exact ⟨t, rfl, rfl, rfl, rfl⟩

theorem run_decl_returned_iff (d : decl) (w : compile_unit) :
    (run_decl d w).1 = Outcome.returned () ↔
      d.type.isSome = true ∧ (mode_flags d.mode).isSome = true ∧
        w.symbols.get_variable d.name = none := by
  constructor
  · intro h
    obtain ⟨t, ht, hm, hv, _⟩ := run_decl_returned d w h
    exact ⟨by rw [ht]; rfl, hm, hv⟩
  · rintro ⟨ht, hm, hv⟩
    obtain ⟨t, ht⟩ := Option.isSome_iff_exists.mp ht
    obtain ⟨fl, hm⟩ := Option.isSome_iff_exists.mp hm
    simp [run_decl, ht, hm, hv]

theorem run_decls_cons_of_returned (d : decl) (L : List decl) (w : compile_unit)
    (h : (run_decl d w).1 = Outcome.returned ()) :
    run_decls (d :: L) w = run_decls L (run_decl d w).2 := by
  rw [run_decls_cons]
  exact bind_of_returned _ _ _ _ () (Prod.ext h rfl)

theorem run_decls_cons_of_fatal (d : decl) (L : List decl) (w : compile_unit)
    (e : fatal_error) (h : (run_decl d w).1 = Outcome.fatal e) :
    run_decls (d :: L) w = run_decl d w := by
  have he : run_decl d w = (Outcome.fatal e, (run_decl d w).2) := Prod.ext h rfl
  rw [run_decls_cons, bind_of_fatal _ _ _ _ e he]
  exact he.symm

theorem outcome_cases (o : Outcome Unit) :
    o = Outcome.returned () ∨ ∃ e, o = Outcome.fatal e := by
  cases o with
  | returned a => exact Or.inl rfl
  | fatal e => exact Or.inr ⟨e, rfl⟩

theorem run_decls_append_of_returned (L1 L2 : List decl) (w : compile_unit)
    (h : (run_decls L1 w).1 = Outcome.returned ()) :
    run_decls (L1 ++ L2) w = run_decls L2 (run_decls L1 w).2 := by
  rw [run_decls_append]
  exact bind_of_returned _ _ _ _ () (Prod.ext h rfl)

theorem run_decls_append_of_fatal (L1 L2 : List decl) (w : compile_unit)
    (e : fatal_error) (h : (run_decls L1 w).1 = Outcome.fatal e) :
    run_decls (L1 ++ L2) w = run_decls L1 w := by
  have he : run_decls L1 w = (Outcome.fatal e, (run_decls L1 w).2) := Prod.ext h rfl
  rw [run_decls_append, bind_of_fatal _ _ _ _ e he]
  exact he.symm

theorem run_decls_cons_returned (d : decl) (L : List decl) (w : compile_unit)
    (h : (run_decls (d :: L) w).1 = Outcome.returned ()) :
    (run_decl d w).1 = Outcome.returned () := by
  rcases outcome_cases (run_decl d w).1 with h1 | ⟨e, h1⟩
  · exact h1
  · rw [run_decls_cons_of_fatal d L w e h1, h1] at h
    cases h

theorem run_decls_append_returned (L1 L2 : List decl) (w : compile_unit)
    (h : (run_decls (L1 ++ L2) w).1 = Outcome.returned ()) :
    (run_decls L1 w).1 = Outcome.returned () := by
  rcases outcome_cases (run_decls L1 w).1 with h1 | ⟨e, h1⟩
  · exact h1
  · rw [run_decls_append_of_fatal L1 L2 w e h1, h1] at h
    cases h

/-- A single registration only extends the instruction list, by at most one node that
carries the name of the declaration. -/
theorem run_decl_instructions (d : decl) (w : compile_unit) :
    (run_decl d w).2.instructions = w.instructions ∨
      ∃ v, v.name = d.name ∧ (run_decl d w).2.instructions = w.instructions ++ [v] := by
  unfold run_decl
  cases d.type with
  | none => exact Or.inl rfl
  | some t =>
    cases mode_flags d.mode with
    | none => exact Or.inl rfl
    | some fl =>
      cases w.symbols.get_variable d.name with
      | some r => exact Or.inr ⟨d.bare t, rfl, rfl⟩
      | none => exact Or.inr ⟨d.node t, rfl, rfl⟩

/-- A single registration only extends the bindings of the symbol table. -/
theorem run_decl_bindings (d : decl) (w : compile_unit) :
    (run_decl d w).2.symbols.bindings = w.symbols.bindings ∨
      (run_decl d w).2.symbols.bindings =
        (d.name, w.instructions.length) :: w.symbols.bindings := by
  unfold run_decl
  cases d.type with
  | none => exact Or.inl rfl
  | some t =>
    cases mode_flags d.mode with
    | none => exact Or.inl rfl
    | some fl =>
      cases w.symbols.get_variable d.name with
      | some r => exact Or.inl rfl
      | none => exact Or.inr rfl

/-- The instruction list only grows at its tail. -/
theorem run_decls_instructions_prefix (L : List decl) (w : compile_unit) :
    w.instructions <+: (run_decls L w).2.instructions := by
  induction L generalizing w with
  | nil => exact List.prefix_refl _
  | cons d L ih =>
    have hd : w.instructions <+: (run_decl d w).2.instructions := by
      rcases run_decl_instructions d w with h | ⟨v, _, h⟩
      · rw [h]
      · rw [h]; exact List.prefix_append _ _
    rcases outcome_cases (run_decl d w).1 with h1 | ⟨e, h1⟩
    · rw [run_decls_cons_of_returned d L w h1]
      exact hd.trans (ih _)
    · rw [run_decls_cons_of_fatal d L w e h1]
      exact hd

/-- The variable name space only grows: every name bound before is bound after. -/
theorem run_decls_registered_names (L : List decl) (w : compile_unit) :
    ∀ n ∈ registered_names w, n ∈ registered_names (run_decls L w).2 := by
  induction L generalizing w with
  | nil => intro n hn; exact hn
  | cons d L ih =>
    have hd : ∀ n ∈ registered_names w, n ∈ registered_names (run_decl d w).2 := by
      intro n hn
      unfold registered_names at hn ⊢
      rcases run_decl_bindings d w with h | h
      · rw [h]; exact hn
      · rw [h]; exact List.mem_cons_of_mem _ hn
    rcases outcome_cases (run_decl d w).1 with h1 | ⟨e, h1⟩
    · rw [run_decls_cons_of_returned d L w h1]
      intro n hn
      exact ih _ n (hd n hn)
    · rw [run_decls_cons_of_fatal d L w e h1]
      exact hd

/-- The names pushed to the instruction list are an initial segment of the names of the
declarations, in order. -/
theorem run_decls_declared_names (L : List decl) (w : compile_unit) :
    ∃ l, l <+: L.map decl.name ∧
      declared_names (run_decls L w).2 = declared_names w ++ l := by
  induction L generalizing w with
  | nil => exact ⟨[], List.prefix_refl _, by simp [run_decls_nil]⟩
  | cons d L ih =>
    rcases outcome_cases (run_decl d w).1 with h1 | ⟨e, h1⟩
    · rw [run_decls_cons_of_returned d L w h1]
      obtain ⟨t, _, _, _, hw⟩ := run_decl_returned d w h1
      obtain ⟨l, hl, hn⟩ := ih (run_decl d w).2
      refine ⟨d.name :: l, ?_, ?_⟩
      · rw [List.map_cons]
        exact (List.prefix_cons_inj d.name).mpr hl
      · rw [hn, hw]
        simp [declared_names, decl.node, decl.bare]
    · rw [run_decls_cons_of_fatal d L w e h1]
      rcases run_decl_instructions d w with h | ⟨v, hv, h⟩
      · exact ⟨[], List.nil_prefix, by simp [declared_names, h]⟩
      · refine ⟨[d.name], ?_, by simp [declared_names, h, hv]⟩
        rw [List.map_cons]
        exact (List.prefix_cons_inj d.name).mpr List.nil_prefix

theorem assoc_find_cons_ne {β : Type} (key k : String) (v : β) (rest : List (String × β))
    (h : k ≠ key) : assoc_find key ((k, v) :: rest) = assoc_find key rest := by
  simp [assoc_find, h]

theorem assoc_find_cons_self {β : Type} (key : String) (v : β) (rest : List (String × β)) :
    assoc_find key ((key, v) :: rest) = some v := by
  simp [assoc_find]

theorem assoc_find_none_iff {β : Type} (key : String) (l : List (String × β)) :
    assoc_find key l = none ↔ key ∉ l.map Prod.fst := by
  induction l with
  | nil => simp [assoc_find]
  | cons p l ih =>
    obtain ⟨k, v⟩ := p
    by_cases h : k = key
    · simp [assoc_find, h]
    · simp [assoc_find, h, ih, Ne.symm h]

/-- A successful registration keeps every earlier resolution. -/
theorem run_decl_lookup_frame (d : decl) (w : compile_unit) (n : String) (v : ir_variable)
    (h : (run_decl d w).1 = Outcome.returned ()) (hl : lookup_variable w n = some v) :
    lookup_variable (run_decl d w).2 n = some v := by
  obtain ⟨t, _, _, hv, hw⟩ := run_decl_returned d w h
  rw [hw]
  unfold lookup_variable glsl_symbol_table.get_variable at hl ⊢
  unfold glsl_symbol_table.get_variable at hv
  have hne : d.name ≠ n := by
    intro he
    rw [← he, hv] at hl
    cases hl
  simp only [assoc_find_cons_ne _ _ _ _ hne]
  cases hr : assoc_find n w.symbols.bindings with
  | none => rw [hr] at hl; cases hl
  | some ref =>
    rw [hr] at hl
    simp only at hl ⊢
    have hlt : ref < w.instructions.length := by
      by_contra hc
      rw [List.getElem?_eq_none (Nat.le_of_not_lt hc)] at hl
      cases hl
    rw [List.getElem?_append_left hlt]
    exact hl

/-- After a successful registration the name resolves to the finished node. -/
theorem run_decl_lookup_new (d : decl) (w : compile_unit)
    (h : (run_decl d w).1 = Outcome.returned ()) :
    ∃ t, d.type = some t ∧ lookup_variable (run_decl d w).2 d.name = some (d.node t) := by
  obtain ⟨t, ht, _, _, hw⟩ := run_decl_returned d w h
  refine ⟨t, ht, ?_⟩
  rw [hw]
  simp [lookup_variable, glsl_symbol_table.get_variable, assoc_find]

theorem run_decls_lookup_frame (L : List decl) (w : compile_unit) (n : String)
    (v : ir_variable) (h : (run_decls L w).1 = Outcome.returned ())
    (hl : lookup_variable w n = some v) :
    lookup_variable (run_decls L w).2 n = some v := by
  induction L generalizing w with
  | nil => exact hl
  | cons d L ih =>
    have h1 := run_decls_cons_returned d L w h
    rw [run_decls_cons_of_returned d L w h1] at h ⊢
    exact ih _ h (run_decl_lookup_frame d w n v h1 hl)

/-- When a run of declarations returns, each of their names resolves to the node of
its declaration. -/
theorem run_decls_lookup (L : List decl) (w : compile_unit)
    (h : (run_decls L w).1 = Outcome.returned ()) :
    ∀ d ∈ L, ∃ t, d.type = some t ∧
      lookup_variable (run_decls L w).2 d.name = some (d.node t) := by
  induction L generalizing w with
  | nil => intro d hd; cases hd
  | cons d0 L ih =>
    have h1 := run_decls_cons_returned d0 L w h
    rw [run_decls_cons_of_returned d0 L w h1] at h ⊢
    intro d hd
    rcases List.mem_cons.mp hd with rfl | hd
    · obtain ⟨t, ht, hn⟩ := run_decl_lookup_new d w h1
      exact ⟨t, ht, run_decls_lookup_frame L _ _ _ h hn⟩
    · exact ih _ h d hd

/-- A run of declarations returns when every type handle is there, every mode is known
to the `switch`, and the names are pairwise distinct and not bound yet. -/
theorem run_decls_returns (L : List decl) (w : compile_unit)
    (hty : ∀ d ∈ L, d.type.isSome = true)
    (hmode : ∀ d ∈ L, (mode_flags d.mode).isSome = true)
    (hnodup : (L.map decl.name).Nodup)
    (hfresh : ∀ d ∈ L, w.symbols.get_variable d.name = none) :
    (run_decls L w).1 = Outcome.returned () := by
  induction L generalizing w with
  | nil => rfl
  | cons d L ih =>
    have h1 : (run_decl d w).1 = Outcome.returned () :=
      (run_decl_returned_iff d w).mpr
        ⟨hty d (List.mem_cons_self _ _), hmode d (List.mem_cons_self _ _),
          hfresh d (List.mem_cons_self _ _)⟩
    rw [run_decls_cons_of_returned d L w h1]
    rw [List.map_cons, List.nodup_cons] at hnodup
    apply ih _ (fun x hx => hty x (List.mem_cons_of_mem _ hx))
      (fun x hx => hmode x (List.mem_cons_of_mem _ hx)) hnodup.2
    intro x hx
    obtain ⟨t, _, _, _, hw⟩ := run_decl_returned d w h1
    rw [hw]
    have hne : d.name ≠ x.name := by
      intro he
      exact hnodup.1 (he ▸ List.mem_map_of_mem decl.name hx)
    have := hfresh x (List.mem_cons_of_mem _ hx)
    unfold glsl_symbol_table.get_variable at this ⊢
    simp only [assoc_find_cons_ne _ _ _ _ hne]
    exact this

/-- When a run of declarations returns, the instruction list has grown by exactly the
finished nodes, in order. -/
theorem run_decls_returned_instructions (L : List decl) (w : compile_unit)
    (h : (run_decls L w).1 = Outcome.returned ()) :
    (run_decls L w).2.instructions.map ir_variable.name =
      w.instructions.map ir_variable.name ++ L.map decl.name := by
  induction L generalizing w with
  | nil => simp [run_decls_nil]
  | cons d L ih =>
    have h1 := run_decls_cons_returned d L w h
    rw [run_decls_cons_of_returned d L w h1] at h ⊢
    obtain ⟨t, _, _, _, hw⟩ := run_decl_returned d w h1
    rw [ih _ h, hw]
    simp [decl.node, decl.bare]

theorem run_decls_append_registered_names (L1 L2 : List decl) (w : compile_unit) :
    ∀ n ∈ registered_names (run_decls L1 w).2,
      n ∈ registered_names (run_decls (L1 ++ L2) w).2 := by
  rcases outcome_cases (run_decls L1 w).1 with h1 | ⟨e, h1⟩
  · rw [run_decls_append_of_returned L1 L2 w h1]
    exact run_decls_registered_names L2 _
  · rw [run_decls_append_of_fatal L1 L2 w e h1]
    intro n hn
    exact hn

/-! ## The claims -/

theorem add_variable_gives_of_flags (name : String) (mode : ir_variable_mode) (slot : Int)
    (type : glsl_type) (w : compile_unit) (fl : Bool × Bool × Bool)
    (hm : mode_flags mode = some fl) :
    add_variable_gives name mode slot type w fl.1 fl.2.1 fl.2.2 := by
  have hs : (mode_flags mode).isSome = true := by rw [hm]; rfl
  refine ⟨declared name mode slot type, ?_, ?_, ?_, rfl, rfl, rfl, rfl, ?_, ?_, ?_⟩
  · simp [declared, hm]
  · simp [declared, hm]
  · simp [declared, hm]
  · rw [add_variable_eq _ _ _ _ _ hs]
    cases w.symbols.get_variable name <;> rfl
  · intro ref
    rw [add_variable_eq _ _ _ _ _ hs]
    cases w.symbols.get_variable name with
    | some r => intro h; cases h
    | none =>
      intro h
      simp only [Outcome.returned.injEq] at h
      subst h
      simp
  · intro h
    rw [add_variable_eq _ _ _ _ _ hs, h]

/-- C1: for every name, slot, type and compile unit, `add_variable` builds for each of
the modes auto, in, out, inout and uniform a node whose (read_only, shader_in,
shader_out) is (true, false, false), (true, true, false), (false, false, true),
(false, true, true) and (true, true, false) respectively, whose mode is the given mode
and whose location is the given slot; the node is the one the returned reference
designates. -/
theorem add_variable_qualifier_flags (name : String) (slot : Int) (type : glsl_type)
    (w : compile_unit) :
    add_variable_gives name ir_variable_mode.ir_var_auto slot type w true false false ∧
    add_variable_gives name ir_variable_mode.ir_var_in slot type w true true false ∧
    add_variable_gives name ir_variable_mode.ir_var_out slot type w false false true ∧
    add_variable_gives name ir_variable_mode.ir_var_inout slot type w false true true ∧
    add_variable_gives name ir_variable_mode.ir_var_uniform slot type w true true false :=
  ⟨add_variable_gives_of_flags name ir_variable_mode.ir_var_auto slot type w
     (true, false, false) rfl,
   add_variable_gives_of_flags name ir_variable_mode.ir_var_in slot type w
     (true, true, false) rfl,
   add_variable_gives_of_flags name ir_variable_mode.ir_var_out slot type w
     (false, false, true) rfl,
   add_variable_gives_of_flags name ir_variable_mode.ir_var_inout slot type w
     (false, true, true) rfl,
   add_variable_gives_of_flags name ir_variable_mode.ir_var_uniform slot type w
     (true, true, false) rfl⟩

/-- C9: for the geometry stage, whatever the language version, the limits and the
initial state, `_mesa_glsl_initialize_variables` returns normally and leaves the symbol
table and the instruction list as they were. -/
theorem geometry_shader_unchanged (T : builtin_tables) (language_version : Nat)
    (Const : gl_constants) (w : compile_unit) :
    _mesa_glsl_initialize_variables T
        ⟨_mesa_glsl_parser_targets.geometry_shader, language_version, Const⟩ w =
      (Outcome.returned (), w) ∧
    (_mesa_glsl_initialize_variables T
        ⟨_mesa_glsl_parser_targets.geometry_shader, language_version, Const⟩ w).2.symbols =
      w.symbols ∧
    (_mesa_glsl_initialize_variables T
        ⟨_mesa_glsl_parser_targets.geometry_shader, language_version, Const⟩ w).2.instructions =
      w.instructions :=
  ⟨rfl, rfl, rfl⟩

/-- C3: for the vertex stage and for the fragment stage, with the same tables, limits
and initial state, every name bound in the symbol table after the run for version 110
is bound after the run for version 120, and every name bound after the run for version
120 is bound after the run for version 130. -/
theorem cascade_monotone (T : builtin_tables) (Const : gl_constants) (w : compile_unit) :
    ((∀ n ∈ registered_names (_mesa_glsl_initialize_variables T
          ⟨_mesa_glsl_parser_targets.vertex_shader, 110, Const⟩ w).2,
        n ∈ registered_names (_mesa_glsl_initialize_variables T
          ⟨_mesa_glsl_parser_targets.vertex_shader, 120, Const⟩ w).2) ∧
     (∀ n ∈ registered_names (_mesa_glsl_initialize_variables T
          ⟨_mesa_glsl_parser_targets.vertex_shader, 120, Const⟩ w).2,
        n ∈ registered_names (_mesa_glsl_initialize_variables T
          ⟨_mesa_glsl_parser_targets.vertex_shader, 130, Const⟩ w).2)) ∧
    ((∀ n ∈ registered_names (_mesa_glsl_initialize_variables T
          ⟨_mesa_glsl_parser_targets.fragment_shader, 110, Const⟩ w).2,
        n ∈ registered_names (_mesa_glsl_initialize_variables T
          ⟨_mesa_glsl_parser_targets.fragment_shader, 120, Const⟩ w).2) ∧
     (∀ n ∈ registered_names (_mesa_glsl_initialize_variables T
          ⟨_mesa_glsl_parser_targets.fragment_shader, 120, Const⟩ w).2,
        n ∈ registered_names (_mesa_glsl_initialize_variables T
          ⟨_mesa_glsl_parser_targets.fragment_shader, 130, Const⟩ w).2)) := by
  simp only [initialize_variables_eq T _ w (by simp : (_mesa_glsl_parse_state.mk
      _mesa_glsl_parser_targets.vertex_shader _ Const).target ≠ _),
    initialize_variables_eq T _ w (by simp : (_mesa_glsl_parse_state.mk
      _mesa_glsl_parser_targets.fragment_shader _ Const).target ≠ _)]
  refine ⟨⟨?_, ?_⟩, ⟨?_, ?_⟩⟩
  · intro n hn; exact hn
  · exact run_decls_append_registered_names _ _ w
  · exact run_decls_append_registered_names _ _ w
  · exact run_decls_append_registered_names _ _ w

/-- The instructions of `generate_ARB_draw_buffers_variables` when it returns. -/
theorem draw_buffers_returned (T : builtin_tables) (Const : gl_constants) (warn : Bool)
    (target : _mesa_glsl_parser_targets) (w : compile_unit)
    (h : (generate_ARB_draw_buffers_variables T Const warn target w).1 = Outcome.returned ()) :
    (generate_ARB_draw_buffers_variables T Const warn target w).2.instructions =
      w.instructions ++
        ({ name := "gl_MaxDrawBuffers"
           type := glsl_type.int_type
           mode := ir_variable_mode.ir_var_auto
           read_only := true
           shader_in := false
           shader_out := false
           location := -1
           constant_value := some (ir_constant.int (int_cast Const.MaxDrawBuffers))
           warn_extension := if warn then some "GL_ARB_draw_buffers" else none } ::
         (if target = _mesa_glsl_parser_targets.fragment_shader then
           [{ name := "gl_FragData"
              type := glsl_type.array glsl_type.vec4_type Const.MaxDrawBuffers
              mode := ir_variable_mode.ir_var_out
              read_only := false
              shader_in := false
              shader_out := true
              location := T.FRAG_RESULT_DATA0
              constant_value := none
              warn_extension := if warn then some "GL_ARB_draw_buffers" else none }]
          else [])) := by
  rw [generate_ARB_draw_buffers_variables_eq] at h ⊢
  revert h
  cases hv : assoc_find "gl_MaxDrawBuffers" w.symbols.bindings <;>
    cases hv2 : assoc_find "gl_FragData" w.symbols.bindings <;>
    cases warn <;> cases target <;>
    simp [decls_ARB_draw_buffers, run_decls_cons, run_decls_nil, run_decl, Exec.bind, hv, hv2,
      mode_flags, pure_apply, decl.bare, decl.node, glsl_symbol_table.get_variable, assoc_find]

/-- When `generate_ARB_draw_buffers_variables` returns. -/
theorem draw_buffers_returns_iff (T : builtin_tables) (Const : gl_constants) (warn : Bool)
    (target : _mesa_glsl_parser_targets) (w : compile_unit) :
    (generate_ARB_draw_buffers_variables T Const warn target w).1 = Outcome.returned () ↔
      (w.symbols.get_variable "gl_MaxDrawBuffers" = none ∧
        (target = _mesa_glsl_parser_targets.fragment_shader →
          w.symbols.get_variable "gl_FragData" = none)) := by
  rw [generate_ARB_draw_buffers_variables_eq]
  cases hv : assoc_find "gl_MaxDrawBuffers" w.symbols.bindings <;>
    cases hv2 : assoc_find "gl_FragData" w.symbols.bindings <;>
    cases warn <;> cases target <;>
    simp [decls_ARB_draw_buffers, run_decls_cons, run_decls_nil, run_decl, Exec.bind, hv, hv2,
      mode_flags, pure_apply, decl.bare, decl.node, glsl_symbol_table.get_variable, assoc_find]

theorem run_decl_no_warn (d : decl) (w : compile_unit) (h : d.warn = none) :
    ∃ added, (run_decl d w).2.instructions = w.instructions ++ added ∧
      ∀ v ∈ added, v.warn_extension = none := by
  unfold run_decl
  cases d.type with
  | none => exact ⟨[], by simp, by simp⟩
  | some t =>
    cases mode_flags d.mode with
    | none => exact ⟨[], by simp, by simp⟩
    | some fl =>
      cases w.symbols.get_variable d.name with
      | some r => exact ⟨[d.bare t], rfl, by simp [decl.bare]⟩
      | none => exact ⟨[d.node t], rfl, by simp [decl.node, h]⟩

/-- Declarations without a warning tag only add nodes without a warning tag, however
the run ends. -/
theorem run_decls_no_warn (L : List decl) (w : compile_unit) (h : ∀ d ∈ L, d.warn = none) :
    ∃ added, (run_decls L w).2.instructions = w.instructions ++ added ∧
      ∀ v ∈ added, v.warn_extension = none := by
  induction L generalizing w with
  | nil => exact ⟨[], by simp [run_decls_nil], by simp⟩
  | cons d L ih =>
    obtain ⟨a1, h1, h2⟩ := run_decl_no_warn d w (h d (List.mem_cons_self _ _))
    rcases outcome_cases (run_decl d w).1 with hr | ⟨e, hr⟩
    · rw [run_decls_cons_of_returned d L w hr]
      obtain ⟨a2, h3, h4⟩ := ih (run_decl d w).2 (fun x hx => h x (List.mem_cons_of_mem _ hx))
      refine ⟨a1 ++ a2, by rw [h3, h1, List.append_assoc], ?_⟩
      intro v hv
      rcases List.mem_append.mp hv with hv | hv
      · exact h2 v hv
      · exact h4 v hv
    · rw [run_decls_cons_of_fatal d L w e hr]
      exact ⟨a1, h1, h2⟩

/-- C5: for every target, limits and compile unit, when
`generate_ARB_draw_buffers_variables` is called with `warn = true` and returns, every
variable it has added carries the warning tag "GL_ARB_draw_buffers"; when it is called
with `warn = false` and returns, no variable it has added carries a tag.  In both cases
at least one variable has been added.  With `warn = false` the variables added carry no
tag however the call ends. -/
theorem draw_buffers_extension_gating (T : builtin_tables) (Const : gl_constants)
    (target : _mesa_glsl_parser_targets) (w : compile_unit) :
    ((generate_ARB_draw_buffers_variables T Const true target w).1 = Outcome.returned () →
      ∃ added, added ≠ [] ∧
        (generate_ARB_draw_buffers_variables T Const true target w).2.instructions =
          w.instructions ++ added ∧
        ∀ v ∈ added, v.warn_extension = some "GL_ARB_draw_buffers") ∧
    ((generate_ARB_draw_buffers_variables T Const false target w).1 = Outcome.returned () →
      ∃ added, added ≠ [] ∧
        (generate_ARB_draw_buffers_variables T Const false target w).2.instructions =
          w.instructions ++ added ∧
        ∀ v ∈ added, v.warn_extension = none) ∧
    (∃ added,
      (generate_ARB_draw_buffers_variables T Const false target w).2.instructions =
        w.instructions ++ added ∧
      ∀ v ∈ added, v.warn_extension = none) := by
  refine ⟨?_, ?_, ?_⟩
  rotate_left 2
  · rw [generate_ARB_draw_buffers_variables_eq]
    apply run_decls_no_warn
    intro d hd
    by_cases ht : target = _mesa_glsl_parser_targets.fragment_shader <;>
      simp [decls_ARB_draw_buffers, ht] at hd
    · rcases hd with rfl | rfl <;> rfl
    · rw [hd]
  · intro h
    refine ⟨_, ?_, draw_buffers_returned T Const true target w h, ?_⟩
    · simp
    · intro v hv
      by_cases ht : target = _mesa_glsl_parser_targets.fragment_shader
      · simp only [ht, if_true, List.mem_cons, List.mem_singleton, List.not_mem_nil,
          or_false] at hv
        rcases hv with rfl | rfl <;> rfl
      · simp only [ht, if_false, if_true, List.mem_cons, List.not_mem_nil, or_false] at hv
        rw [hv]
  · intro h
    refine ⟨_, ?_, draw_buffers_returned T Const false target w h, ?_⟩
    · simp
    · intro v hv
      by_cases ht : target = _mesa_glsl_parser_targets.fragment_shader
      · simp only [ht, if_true, List.mem_cons, List.mem_singleton, List.not_mem_nil,
          or_false] at hv
        rcases hv with rfl | rfl <;> rfl
      · simp only [ht, if_false, List.mem_cons, List.not_mem_nil, or_false] at hv
        rw [hv]
        rfl

/-- When `_mesa_glsl_initialize_variables` returns, the name of each of its declarations
resolves to the finished node of that declaration. -/
theorem initialize_variables_lookup (T : builtin_tables) (state : _mesa_glsl_parse_state)
    (w : compile_unit) (hne : state.target ≠ _mesa_glsl_parser_targets.ir_shader)
    (hret : (_mesa_glsl_initialize_variables T state w).1 = Outcome.returned ())
    (d : decl) (t : glsl_type) (hd : d ∈ decls_of T state w.symbols.types)
    (ht : d.type = some t) :
    lookup_variable (_mesa_glsl_initialize_variables T state w).2 d.name = some (d.node t) := by
  rw [initialize_variables_eq T state w hne] at hret ⊢
  obtain ⟨t1, ht1, hl⟩ := run_decls_lookup _ w hret d hd
  rw [ht] at ht1
  cases ht1
  exact hl

theorem TextureMatrix_mem_decls_of (T : builtin_tables) (state : _mesa_glsl_parse_state)
    (types : List (String × glsl_type))
    (hstage : state.target = _mesa_glsl_parser_targets.vertex_shader ∨
      state.target = _mesa_glsl_parser_targets.fragment_shader)
    (hversion : state.language_version = 110 ∨ state.language_version = 120 ∨
      state.language_version = 130) :
    ({ name := "gl_TextureMatrix"
       mode := ir_variable_mode.ir_var_uniform
       slot := -1
       type := some (glsl_type.array glsl_type.mat4_type state.Const.MaxTextureCoords)
       constant := none
       warn := none } : decl) ∈ decls_of T state types := by
  rcases hstage with hs | hs <;> rcases hversion with hv | hv | hv <;>
    simp [decls_of, hs, hv, decls_vs, decls_fs, decls_110_vs, decls_110_fs,
      decls_110_uniforms, decls_hard_coded_uniforms]

theorem FragData_mem_decls_of (T : builtin_tables) (state : _mesa_glsl_parse_state)
    (types : List (String × glsl_type))
    (hstage : state.target = _mesa_glsl_parser_targets.fragment_shader)
    (hversion : state.language_version = 110 ∨ state.language_version = 120 ∨
      state.language_version = 130) :
    ({ name := "gl_FragData"
       mode := ir_variable_mode.ir_var_out
       slot := T.FRAG_RESULT_DATA0
       type := some (glsl_type.array glsl_type.vec4_type state.Const.MaxDrawBuffers)
       constant := none
       warn := none } : decl) ∈ decls_of T state types := by
  rcases hversion with hv | hv | hv <;>
    simp [decls_of, hstage, hv, decls_fs, decls_110_fs, decls_ARB_draw_buffers]

/-- C4: for the vertex and the fragment stage, every version among 110, 120 and 130,
and every value of the limits, after a run that returns `gl_TextureMatrix` resolves to a
variable whose type is the array of `mat4` of length `MaxTextureCoords`, and in the
fragment stage `gl_FragData` resolves to a variable whose type is the array of `vec4`
of length `MaxDrawBuffers`. -/
theorem limit_propagation (T : builtin_tables) (state : _mesa_glsl_parse_state)
    (w : compile_unit)
    (hstage : state.target = _mesa_glsl_parser_targets.vertex_shader ∨
      state.target = _mesa_glsl_parser_targets.fragment_shader)
    (hversion : state.language_version = 110 ∨ state.language_version = 120 ∨
      state.language_version = 130)
    (hret : (_mesa_glsl_initialize_variables T state w).1 = Outcome.returned ()) :
    (∃ v, lookup_variable (_mesa_glsl_initialize_variables T state w).2 "gl_TextureMatrix" =
        some v ∧
      v.type = glsl_type.array glsl_type.mat4_type state.Const.MaxTextureCoords) ∧
    (state.target = _mesa_glsl_parser_targets.fragment_shader →
      ∃ v, lookup_variable (_mesa_glsl_initialize_variables T state w).2 "gl_FragData" =
          some v ∧
        v.type = glsl_type.array glsl_type.vec4_type state.Const.MaxDrawBuffers) := by
  have hne : state.target ≠ _mesa_glsl_parser_targets.ir_shader := by
    rcases hstage with h | h <;> rw [h] <;> simp
  constructor
  · exact ⟨_, initialize_variables_lookup T state w hne hret _ _
      (TextureMatrix_mem_decls_of T state _ hstage hversion) rfl, rfl⟩
  · intro hf
    exact ⟨_, initialize_variables_lookup T state w hne hret _ _
      (FragData_mem_decls_of T state _ hf hversion) rfl, rfl⟩

/-- C7: for the fragment stage and version 110, for every value of the limits, after a
run of `_mesa_glsl_initialize_variables` that returns the symbol table maps
`gl_FragData` to a variable with mode out (shader_out set, read_only and shader_in
clear), slot `FRAG_RESULT_DATA0`, type array of `vec4` of length `MaxDrawBuffers`, no
constant and no warning tag. -/
theorem fragment_110_FragData (T : builtin_tables) (Const : gl_constants) (w : compile_unit)
    (hret : (_mesa_glsl_initialize_variables T
      ⟨_mesa_glsl_parser_targets.fragment_shader, 110, Const⟩ w).1 = Outcome.returned ()) :
    lookup_variable (_mesa_glsl_initialize_variables T
        ⟨_mesa_glsl_parser_targets.fragment_shader, 110, Const⟩ w).2 "gl_FragData" =
      some
        { name := "gl_FragData"
          type := glsl_type.array glsl_type.vec4_type Const.MaxDrawBuffers
          mode := ir_variable_mode.ir_var_out
          read_only := false
          shader_in := false
          shader_out := true
          location := T.FRAG_RESULT_DATA0
          constant_value := none
          warn_extension := none } :=
  initialize_variables_lookup T ⟨_mesa_glsl_parser_targets.fragment_shader, 110, Const⟩ w
    (by simp) hret _ _
    (FragData_mem_decls_of T ⟨_mesa_glsl_parser_targets.fragment_shader, 110, Const⟩ _ rfl
      (Or.inl rfl)) rfl

/-- C8: for the vertex stage, every name bound in the symbol table after the run for
version 120 is bound after the run for version 130; and after a run for version 130
that returns, `gl_ClipDistance` resolves to a variable with mode out (shader_out set,
read_only and shader_in clear), slot -1 and type array of `float` of length 8, whatever
the limits are. -/
theorem vertex_130_ClipDistance (T : builtin_tables) (Const : gl_constants)
    (w : compile_unit) :
    (∀ n ∈ registered_names (_mesa_glsl_initialize_variables T
          ⟨_mesa_glsl_parser_targets.vertex_shader, 120, Const⟩ w).2,
        n ∈ registered_names (_mesa_glsl_initialize_variables T
          ⟨_mesa_glsl_parser_targets.vertex_shader, 130, Const⟩ w).2) ∧
    ((_mesa_glsl_initialize_variables T
        ⟨_mesa_glsl_parser_targets.vertex_shader, 130, Const⟩ w).1 = Outcome.returned () →
      lookup_variable (_mesa_glsl_initialize_variables T
          ⟨_mesa_glsl_parser_targets.vertex_shader, 130, Const⟩ w).2 "gl_ClipDistance" =
        some
          { name := "gl_ClipDistance"
            type := glsl_type.array glsl_type.float_type 8
            mode := ir_variable_mode.ir_var_out
            read_only := false
            shader_in := false
            shader_out := true
            location := -1
            constant_value := none
            warn_extension := none }) := by
  constructor
  · simp only [initialize_variables_eq T _ w (by simp : (_mesa_glsl_parse_state.mk
      _mesa_glsl_parser_targets.vertex_shader _ Const).target ≠ _)]
    exact run_decls_append_registered_names _ _ w
  · intro hret
    exact initialize_variables_lookup T ⟨_mesa_glsl_parser_targets.vertex_shader, 130, Const⟩ w
      (by simp) hret (decl_ClipDistance ir_variable_mode.ir_var_out) _
      (by simp [decls_of, decls_vs, decls_130_vs_extra]) rfl

theorem decl_of_proto_name (types : List (String × glsl_type)) :
    decl.name ∘ decl_of_proto types = builtin_variable.name := by
  funext p
  rfl

theorem decls_of_names (T : builtin_tables) (state : _mesa_glsl_parse_state)
    (types : List (String × glsl_type)) :
    (decls_of T state types).map decl.name = builtin_names T state := by
  unfold builtin_names decls_of decls_vs decls_fs
  cases state.target <;>
    simp only [decls_110_vs, decls_110_fs, decls_110_uniforms, decls_130_vs_extra,
      decls_120_fs_extra, decls_hard_coded_uniforms, List.map_append, List.map_map,
      decl_of_proto_name, List.map_cons, List.map_nil, decl_TexCoord,
      decls_ARB_draw_buffers, decl_ClipDistance, apply_ite (List.map decl.name)]

theorem decls_of_cases (T : builtin_tables) (state : _mesa_glsl_parse_state)
    (types : List (String × glsl_type)) (d : decl) (hd : d ∈ decls_of T state types) :
    (∃ p ∈ tables_used T state, d = decl_of_proto types p) ∨
    ((mode_flags d.mode).isSome = true ∧ d.type.isSome = true) := by
  unfold decls_of at hd
  unfold tables_used
  cases ht : state.target <;> simp only [ht] at hd ⊢
  · unfold decls_vs at hd
    split_ifs at hd with h1 h2 h3 <;>
      simp only [decls_110_vs, decls_110_uniforms, decls_130_vs_extra,
        decls_hard_coded_uniforms, decls_ARB_draw_buffers, decl_TexCoord, decl_ClipDistance,
        List.mem_append, List.mem_map, List.mem_cons, List.mem_singleton, List.not_mem_nil,
        reduceCtorEq, if_false, or_false] at hd <;>
      casesm* _ ∨ _, ∃ _, _, _ ∧ _ <;> subst_vars <;>
      first
        | exact Or.inl ⟨_, by simp [*], rfl⟩
        | exact Or.inr ⟨rfl, rfl⟩
  · cases hd
  · unfold decls_fs at hd
    split_ifs at hd with h1 h2 h3 <;>
      simp only [decls_110_fs, decls_110_uniforms, decls_120_fs_extra,
        decls_hard_coded_uniforms, decls_ARB_draw_buffers, decl_TexCoord, decl_ClipDistance,
        List.mem_append, List.mem_map, List.mem_cons, List.mem_singleton, List.not_mem_nil,
        if_true, or_false] at hd <;>
      casesm* _ ∨ _, ∃ _, _, _ ∧ _ <;> subst_vars <;>
      first
        | exact Or.inl ⟨_, by simp [*], rfl⟩
        | exact Or.inr ⟨rfl, rfl⟩
  · cases hd

/-- A run of `_mesa_glsl_initialize_variables` returns when the target is not
`ir_shader`, the type name of every table row in use is in the registry, every such row
has a mode known to `add_variable`, and the names to declare are pairwise distinct and
not bound yet. -/
theorem initialize_variables_returns (T : builtin_tables) (state : _mesa_glsl_parse_state)
    (w : compile_unit) (hne : state.target ≠ _mesa_glsl_parser_targets.ir_shader)
    (htypes : ∀ p ∈ tables_used T state, (w.symbols.get_type p.type).isSome = true)
    (hmodes : ∀ p ∈ tables_used T state, (mode_flags p.mode).isSome = true)
    (hnodup : (builtin_names T state).Nodup)
    (hfresh : ∀ n ∈ builtin_names T state, w.symbols.get_variable n = none) :
    (_mesa_glsl_initialize_variables T state w).1 = Outcome.returned () := by
  rw [initialize_variables_eq T state w hne]
  apply run_decls_returns
  · intro d hd
    rcases decls_of_cases T state _ d hd with ⟨p, hp, rfl⟩ | ⟨_, h⟩
    · exact htypes p hp
    · exact h
  · intro d hd
    rcases decls_of_cases T state _ d hd with ⟨p, hp, rfl⟩ | ⟨h, _⟩
    · exact hmodes p hp
    · exact h
  · rw [decls_of_names]
    exact hnodup
  · intro d hd
    apply hfresh
    rw [← decls_of_names T state w.symbols.types]
    exact List.mem_map_of_mem decl.name hd

theorem hard_coded_names_nodup : hard_coded_names.Nodup := by
  simp [hard_coded_names]

/-- The declared names are pairwise distinct when the table names of the stage are
pairwise distinct and none of them is a hard-coded name. -/
theorem builtin_names_nodup (T : builtin_tables) (state : _mesa_glsl_parse_state)
    (h1 : (stage_table_names T state.target).Nodup)
    (h2 : ∀ n ∈ stage_table_names T state.target, n ∉ hard_coded_names) :
    (builtin_names T state).Nodup := by
  have hall : (stage_table_names T state.target ++ hard_coded_names).Nodup :=
    List.nodup_append.mpr ⟨h1, hard_coded_names_nodup, fun a ha hb => h2 a ha hb⟩
  rw [List.nodup_iff_count_le_one] at hall ⊢
  intro a
  refine le_trans ?_ (hall a)
  unfold builtin_names decls_of stage_table_names hard_coded_names decls_vs decls_fs
  cases state.target <;>
    simp only [decls_110_vs, decls_110_fs, decls_110_uniforms, decls_130_vs_extra,
      decls_120_fs_extra, decls_hard_coded_uniforms, List.map_append, List.map_map,
      decl_of_proto_name, List.map_cons, List.map_nil, decl_TexCoord,
      decls_ARB_draw_buffers, decl_ClipDistance, apply_ite (List.map decl.name),
      apply_ite (List.count a), List.count_append, List.count_cons, List.count_nil,
      reduceCtorEq, if_false, if_true] <;>
    generalize (if ("gl_LightSource" == a) = true then 1 else 0) = x1 <;>
    generalize (if ("gl_TextureMatrix" == a) = true then 1 else 0) = x2 <;>
    generalize (if ("gl_MaxTextureCoords" == a) = true then 1 else 0) = x3 <;>
    generalize (if ("gl_MaxDrawBuffers" == a) = true then 1 else 0) = x4 <;>
    generalize (if ("gl_TexCoord" == a) = true then 1 else 0) = x5 <;>
    generalize (if ("gl_ClipDistance" == a) = true then 1 else 0) = x6 <;>
    generalize (if ("gl_FragData" == a) = true then 1 else 0) = x7 <;>
    first
      | omega
      | (split_ifs <;> omega)

theorem run_decl_not_duplicate (d : decl) (w : compile_unit)
    (h : w.symbols.get_variable d.name = none) :
    (run_decl d w).1 ≠ Outcome.fatal fatal_error.duplicate_symbol := by
  unfold run_decl
  cases d.type with
  | none => simp
  | some t =>
    cases mode_flags d.mode with
    | none => simp
    | some fl => simp [h]

/-- With pairwise distinct names that are not bound yet, no insertion collides. -/
theorem run_decls_not_duplicate (L : List decl) (w : compile_unit)
    (hnodup : (L.map decl.name).Nodup)
    (hfresh : ∀ d ∈ L, w.symbols.get_variable d.name = none) :
    (run_decls L w).1 ≠ Outcome.fatal fatal_error.duplicate_symbol := by
  induction L generalizing w with
  | nil => simp [run_decls_nil]
  | cons d L ih =>
    rcases outcome_cases (run_decl d w).1 with h1 | ⟨e, h1⟩
    · rw [run_decls_cons_of_returned d L w h1]
      rw [List.map_cons, List.nodup_cons] at hnodup
      apply ih _ hnodup.2
      intro x hx
      obtain ⟨t, _, _, _, hw⟩ := run_decl_returned d w h1
      rw [hw]
      have hne : d.name ≠ x.name := by
        intro he
        exact hnodup.1 (he ▸ List.mem_map_of_mem decl.name hx)
      have := hfresh x (List.mem_cons_of_mem _ hx)
      unfold glsl_symbol_table.get_variable at this ⊢
      simp only [assoc_find_cons_ne _ _ _ _ hne]
      exact this
    · rw [run_decls_cons_of_fatal d L w e h1]
      exact run_decl_not_duplicate d w (hfresh d (List.mem_cons_self _ _))

theorem run_decl_fatal_symbols (d : decl) (w : compile_unit) (e : fatal_error)
    (h : (run_decl d w).1 = Outcome.fatal e) : (run_decl d w).2.symbols = w.symbols := by
  unfold run_decl at h ⊢
  cases ht : d.type with
  | none => rfl
  | some t =>
    cases hm : mode_flags d.mode with
    | none => rfl
    | some fl =>
      cases hv : w.symbols.get_variable d.name with
      | some r => rfl
      | none => simp [ht, hm, hv] at h

/-- The names bound by a run are an initial segment of the names of the declarations,
newest first. -/
theorem run_decls_registered_names_eq (L : List decl) (w : compile_unit) :
    ∃ l, l <+: L.map decl.name ∧
      registered_names (run_decls L w).2 = l.reverse ++ registered_names w := by
  induction L generalizing w with
  | nil => exact ⟨[], List.prefix_refl _, by simp [run_decls_nil]⟩
  | cons d L ih =>
    rcases outcome_cases (run_decl d w).1 with h1 | ⟨e, h1⟩
    · rw [run_decls_cons_of_returned d L w h1]
      obtain ⟨t, _, _, _, hw⟩ := run_decl_returned d w h1
      obtain ⟨l, hl, hn⟩ := ih (run_decl d w).2
      refine ⟨d.name :: l, ?_, ?_⟩
      · rw [List.map_cons]
        exact (List.prefix_cons_inj d.name).mpr hl
      · rw [hn, hw]
        simp [registered_names]
    · rw [run_decls_cons_of_fatal d L w e h1]
      refine ⟨[], List.nil_prefix, ?_⟩
      simp [registered_names, run_decl_fatal_symbols d w e h1]

/-- C2: on an empty instruction list and a symbol table without variables, for every
stage, version and limits, the names that `_mesa_glsl_initialize_variables` passes to
the symbol table are pairwise distinct, so are the names bound in the symbol table
afterwards, and no insertion collides, provided the names in the static tables of the
stage are pairwise distinct and none of them is one of the hard-coded names. -/
theorem registered_names_distinct (T : builtin_tables) (state : _mesa_glsl_parse_state)
    (w : compile_unit) (hinstr : w.instructions = []) (hsym : w.symbols.bindings = [])
    (h1 : (stage_table_names T state.target).Nodup)
    (h2 : ∀ n ∈ stage_table_names T state.target, n ∉ hard_coded_names) :
    (declared_names (_mesa_glsl_initialize_variables T state w).2).Nodup ∧
    (registered_names (_mesa_glsl_initialize_variables T state w).2).Nodup ∧
    (_mesa_glsl_initialize_variables T state w).1 ≠
      Outcome.fatal fatal_error.duplicate_symbol := by
  by_cases hne : state.target = _mesa_glsl_parser_targets.ir_shader
  · simp [_mesa_glsl_initialize_variables, hne, die, declared_names, registered_names,
      hinstr, hsym]
  · rw [initialize_variables_eq T state w hne]
    have hn : ((decls_of T state w.symbols.types).map decl.name).Nodup := by
      rw [decls_of_names]
      exact builtin_names_nodup T state h1 h2
    refine ⟨?_, ?_, ?_⟩
    · obtain ⟨l, hl, he⟩ := run_decls_declared_names (decls_of T state w.symbols.types) w
      rw [he]
      simp only [declared_names, hinstr, List.map_nil, List.nil_append]
      exact hn.sublist hl.sublist
    · obtain ⟨l, hl, he⟩ :=
        run_decls_registered_names_eq (decls_of T state w.symbols.types) w
      rw [he]
      simp only [registered_names, hsym, List.map_nil, List.append_nil]
      exact List.nodup_reverse.mpr (hn.sublist hl.sublist)
    · apply run_decls_not_duplicate _ _ hn
      intro d _
      simp [glsl_symbol_table.get_variable, hsym, assoc_find]

theorem int_cast_of_lt (u : Nat) (h : u < 2 ^ 31) : int_cast u = (u : Int) := by
  unfold int_cast
  have h32 : u % 2 ^ 32 = u := Nat.mod_eq_of_lt (by omega)
  rw [h32, if_pos h]

/-- C6, as amended: `generate_ARB_draw_buffers_variables` returns exactly when
`gl_MaxDrawBuffers` (and, for the fragment target, `gl_FragData`) is not bound yet.
When it returns it has added one variable `gl_MaxDrawBuffers` of type int, mode auto,
slot -1, whose constant is the `MaxDrawBuffers` limit converted to `int` (the limit
itself when it is below 2^31); for the fragment target it has added `gl_FragData`
after it and nothing else, for every other target it has added nothing else. -/
theorem draw_buffers_contribution (T : builtin_tables) (Const : gl_constants) (warn : Bool)
    (target : _mesa_glsl_parser_targets) (w : compile_unit) :
    ((generate_ARB_draw_buffers_variables T Const warn target w).1 = Outcome.returned () ↔
      (w.symbols.get_variable "gl_MaxDrawBuffers" = none ∧
        (target = _mesa_glsl_parser_targets.fragment_shader →
          w.symbols.get_variable "gl_FragData" = none))) ∧
    ((generate_ARB_draw_buffers_variables T Const warn target w).1 = Outcome.returned () →
      ∃ mdb : ir_variable,
        mdb.name = "gl_MaxDrawBuffers" ∧ mdb.type = glsl_type.int_type ∧
        mdb.mode = ir_variable_mode.ir_var_auto ∧ mdb.location = -1 ∧
        mdb.constant_value = some (ir_constant.int (int_cast Const.MaxDrawBuffers)) ∧
        (Const.MaxDrawBuffers < 2 ^ 31 →
          mdb.constant_value = some (ir_constant.int (Const.MaxDrawBuffers : Int))) ∧
        (target = _mesa_glsl_parser_targets.fragment_shader →
          ∃ fd : ir_variable, fd.name = "gl_FragData" ∧
            (generate_ARB_draw_buffers_variables T Const warn target w).2.instructions =
              w.instructions ++ [mdb, fd]) ∧
        (target ≠ _mesa_glsl_parser_targets.fragment_shader →
          (generate_ARB_draw_buffers_variables T Const warn target w).2.instructions =
            w.instructions ++ [mdb])) := by
  refine ⟨draw_buffers_returns_iff T Const warn target w, fun h => ?_⟩
  have hi := draw_buffers_returned T Const warn target w h
  refine ⟨{ name := "gl_MaxDrawBuffers"
            type := glsl_type.int_type
            mode := ir_variable_mode.ir_var_auto
            read_only := true
            shader_in := false
            shader_out := false
            location := -1
            constant_value := some (ir_constant.int (int_cast Const.MaxDrawBuffers))
            warn_extension := if warn then some "GL_ARB_draw_buffers" else none },
    rfl, rfl, rfl, rfl, rfl, ?_, ?_, ?_⟩
  · intro hlt
    simp only [int_cast_of_lt _ hlt]
  · intro ht
    refine ⟨{ name := "gl_FragData"
              type := glsl_type.array glsl_type.vec4_type Const.MaxDrawBuffers
              mode := ir_variable_mode.ir_var_out
              read_only := false
              shader_in := false
              shader_out := true
              location := T.FRAG_RESULT_DATA0
              constant_value := none
              warn_extension := if warn then some "GL_ARB_draw_buffers" else none },
      rfl, ?_⟩
    rw [hi, if_pos ht]
  · intro ht
    rw [hi, if_neg ht]

/-- C6, counterexample: with `MaxDrawBuffers = 2^31` the constant of `gl_MaxDrawBuffers`
is `-2^31`, not the limit. -/
theorem draw_buffers_constant_wraps :
    (generate_ARB_draw_buffers_variables example_tables ⟨8, 2147483648⟩ false
        _mesa_glsl_parser_targets.vertex_shader empty_unit).1 = Outcome.returned () ∧
    (generate_ARB_draw_buffers_variables example_tables ⟨8, 2147483648⟩ false
        _mesa_glsl_parser_targets.vertex_shader empty_unit).2.instructions =
      [{ name := "gl_MaxDrawBuffers"
         type := glsl_type.int_type
         mode := ir_variable_mode.ir_var_auto
         read_only := true
         shader_in := false
         shader_out := false
         location := -1
         constant_value := some (ir_constant.int (-2147483648))
         warn_extension := none }] ∧
    ir_constant.int (-2147483648) ≠ ir_constant.int ((2147483648 : Nat) : Int) := by
  have hr : (generate_ARB_draw_buffers_variables example_tables ⟨8, 2147483648⟩ false
      _mesa_glsl_parser_targets.vertex_shader empty_unit).1 = Outcome.returned () :=
    (draw_buffers_returns_iff _ _ _ _ _).mpr ⟨rfl, fun h => by cases h⟩
  refine ⟨hr, ?_, by decide⟩
  rw [draw_buffers_returned _ _ _ _ _ hr]
  simp [empty_unit, int_cast]

/-- The run on the example tables and the example compile unit returns, for every
target but `ir_shader`. -/
theorem example_run_returns (state : _mesa_glsl_parse_state)
    (hne : state.target ≠ _mesa_glsl_parser_targets.ir_shader) :
    (_mesa_glsl_initialize_variables example_tables state example_unit).1 =
      Outcome.returned () := by
  have hnames : (builtin_names example_tables state).Nodup := by
    apply builtin_names_nodup
    · cases state.target <;> simp [stage_table_names, example_tables]
    · cases state.target <;> simp [stage_table_names, example_tables, hard_coded_names]
  apply initialize_variables_returns example_tables state example_unit hne _ _ hnames
  · intro n _
    rfl
  · intro p hp
    unfold tables_used at hp
    cases ht : state.target <;> simp only [ht] at hp <;>
      first
        | cases hp
        | (split_ifs at hp <;>
            simp [example_tables] at hp <;>
            casesm* _ ∨ _ <;> subst_vars <;>
            simp [example_unit, glsl_symbol_table.get_type, assoc_find])
  · intro p hp
    unfold tables_used at hp
    cases ht : state.target <;> simp only [ht] at hp <;>
      first
        | cases hp
        | (split_ifs at hp <;>
            simp [example_tables] at hp <;>
            casesm* _ ∨ _ <;> subst_vars <;>
            simp [mode_flags])

/-- C10, as amended: for the target `ir_shader`, whatever the language version and the
initial state, `_mesa_glsl_initialize_variables` ends in the fatal outcome of `exit(1)`
and leaves the compile unit untouched; for the geometry target it returns normally; for
every other target it returns normally provided every type name it looks up is in the
registry, every table row it instantiates has a mode known to `add_variable`, and the
names it declares are pairwise distinct and not bound yet. -/
theorem dispatcher_outcomes (T : builtin_tables) (language_version : Nat)
    (Const : gl_constants) (w : compile_unit) :
    _mesa_glsl_initialize_variables T
        ⟨_mesa_glsl_parser_targets.ir_shader, language_version, Const⟩ w =
      (Outcome.fatal fatal_error.no_builtin_variables, w) ∧
    _mesa_glsl_initialize_variables T
        ⟨_mesa_glsl_parser_targets.geometry_shader, language_version, Const⟩ w =
      (Outcome.returned (), w) ∧
    (∀ target : _mesa_glsl_parser_targets,
      target ≠ _mesa_glsl_parser_targets.ir_shader →
      (∀ p ∈ tables_used T ⟨target, language_version, Const⟩,
        (w.symbols.get_type p.type).isSome = true) →
      (w.symbols.get_type "gl_LightSourceParameters").isSome = true →
      (∀ p ∈ tables_used T ⟨target, language_version, Const⟩,
        (mode_flags p.mode).isSome = true) →
      (builtin_names T ⟨target, language_version, Const⟩).Nodup →
      (∀ n ∈ builtin_names T ⟨target, language_version, Const⟩,
        w.symbols.get_variable n = none) →
      (_mesa_glsl_initialize_variables T ⟨target, language_version, Const⟩ w).1 =
        Outcome.returned ()) :=
  ⟨rfl, rfl, fun target hne htypes _ hmodes hnodup hfresh =>
    initialize_variables_returns T ⟨target, language_version, Const⟩ w hne htypes hmodes
      hnodup hfresh⟩

/-- C10, counterexample: for the vertex target and version 110, with a table row whose
type is not in the registry, the run ends in the failed assertion of
`add_builtin_variable` instead of returning. -/
theorem vertex_110_not_returning :
    (_mesa_glsl_initialize_variables example_tables
        ⟨_mesa_glsl_parser_targets.vertex_shader, 110, ⟨8, 4⟩⟩ empty_unit).1 =
      Outcome.fatal fatal_error.type_not_found ∧
    (_mesa_glsl_initialize_variables example_tables
        ⟨_mesa_glsl_parser_targets.vertex_shader, 110, ⟨8, 4⟩⟩ empty_unit).1 ≠
      Outcome.returned () := by
  have h : (_mesa_glsl_initialize_variables example_tables
      ⟨_mesa_glsl_parser_targets.vertex_shader, 110, ⟨8, 4⟩⟩ empty_unit).1 =
      Outcome.fatal fatal_error.type_not_found := by
    rw [initialize_variables_eq _ _ _ (by simp)]
    simp [decls_of, decls_vs, decls_110_vs, example_tables, empty_unit, run_decls_cons,
      Exec.bind, run_decl, decl_of_proto, assoc_find]
  exact ⟨h, by rw [h]; simp⟩

/-! ## The claims at a concrete input -/

/-- C2 at the example tables, for the fragment stage and version 130. -/
theorem registered_names_distinct_witness :
    (declared_names (_mesa_glsl_initialize_variables example_tables
      ⟨_mesa_glsl_parser_targets.fragment_shader, 130, ⟨8, 4⟩⟩ example_unit).2).Nodup ∧
    (registered_names (_mesa_glsl_initialize_variables example_tables
      ⟨_mesa_glsl_parser_targets.fragment_shader, 130, ⟨8, 4⟩⟩ example_unit).2).Nodup ∧
    (_mesa_glsl_initialize_variables example_tables
      ⟨_mesa_glsl_parser_targets.fragment_shader, 130, ⟨8, 4⟩⟩ example_unit).1 ≠
      Outcome.fatal fatal_error.duplicate_symbol :=
  registered_names_distinct example_tables
    ⟨_mesa_glsl_parser_targets.fragment_shader, 130, ⟨8, 4⟩⟩ example_unit rfl rfl
    (by simp [stage_table_names, example_tables])
    (by simp [stage_table_names, example_tables, hard_coded_names])

/-- C4 at the example tables, for the fragment stage and version 130, with
`MaxTextureCoords = 8` and `MaxDrawBuffers = 4`. -/
theorem limit_propagation_witness :
    (∃ v, lookup_variable (_mesa_glsl_initialize_variables example_tables
          ⟨_mesa_glsl_parser_targets.fragment_shader, 130, ⟨8, 4⟩⟩ example_unit).2
          "gl_TextureMatrix" = some v ∧
      v.type = glsl_type.array glsl_type.mat4_type 8) ∧
    (_mesa_glsl_parser_targets.fragment_shader = _mesa_glsl_parser_targets.fragment_shader →
      ∃ v, lookup_variable (_mesa_glsl_initialize_variables example_tables
            ⟨_mesa_glsl_parser_targets.fragment_shader, 130, ⟨8, 4⟩⟩ example_unit).2
            "gl_FragData" = some v ∧
        v.type = glsl_type.array glsl_type.vec4_type 4) :=
  limit_propagation example_tables
    ⟨_mesa_glsl_parser_targets.fragment_shader, 130, ⟨8, 4⟩⟩ example_unit
    (Or.inr rfl) (Or.inr (Or.inr rfl))
    (example_run_returns _ (by simp))

/-- C5 at the fragment target with `warn = true`, on the empty compile unit. -/
theorem draw_buffers_extension_gating_witness :
    ∃ added, added ≠ [] ∧
      (generate_ARB_draw_buffers_variables example_tables ⟨8, 4⟩ true
        _mesa_glsl_parser_targets.fragment_shader empty_unit).2.instructions =
        empty_unit.instructions ++ added ∧
      ∀ v ∈ added, v.warn_extension = some "GL_ARB_draw_buffers" :=
  (draw_buffers_extension_gating example_tables ⟨8, 4⟩
    _mesa_glsl_parser_targets.fragment_shader empty_unit).1
    ((draw_buffers_returns_iff _ _ _ _ _).mpr ⟨rfl, fun _ => rfl⟩)

/-- C6 at the fragment target with `MaxDrawBuffers = 4`, on the empty compile unit. -/
theorem draw_buffers_contribution_witness :
    ∃ mdb : ir_variable,
      mdb.name = "gl_MaxDrawBuffers" ∧ mdb.type = glsl_type.int_type ∧
      mdb.mode = ir_variable_mode.ir_var_auto ∧ mdb.location = -1 ∧
      mdb.constant_value = some (ir_constant.int (int_cast 4)) ∧
      ((4 : Nat) < 2 ^ 31 → mdb.constant_value = some (ir_constant.int ((4 : Nat) : Int))) ∧
      (_mesa_glsl_parser_targets.fragment_shader = _mesa_glsl_parser_targets.fragment_shader →
        ∃ fd : ir_variable, fd.name = "gl_FragData" ∧
          (generate_ARB_draw_buffers_variables example_tables ⟨8, 4⟩ false
            _mesa_glsl_parser_targets.fragment_shader empty_unit).2.instructions =
            empty_unit.instructions ++ [mdb, fd]) ∧
      (_mesa_glsl_parser_targets.fragment_shader ≠ _mesa_glsl_parser_targets.fragment_shader →
        (generate_ARB_draw_buffers_variables example_tables ⟨8, 4⟩ false
          _mesa_glsl_parser_targets.fragment_shader empty_unit).2.instructions =
          empty_unit.instructions ++ [mdb]) :=
  (draw_buffers_contribution example_tables ⟨8, 4⟩ false
    _mesa_glsl_parser_targets.fragment_shader empty_unit).2
    ((draw_buffers_returns_iff _ _ _ _ _).mpr ⟨rfl, fun _ => rfl⟩)

/-- C7 at the example tables with `MaxDrawBuffers = 4`. -/
theorem fragment_110_FragData_witness :
    lookup_variable (_mesa_glsl_initialize_variables example_tables
        ⟨_mesa_glsl_parser_targets.fragment_shader, 110, ⟨8, 4⟩⟩ example_unit).2
        "gl_FragData" =
      some
        { name := "gl_FragData"
          type := glsl_type.array glsl_type.vec4_type 4
          mode := ir_variable_mode.ir_var_out
          read_only := false
          shader_in := false
          shader_out := true
          location := 2
          constant_value := none
          warn_extension := none } :=
  fragment_110_FragData example_tables ⟨8, 4⟩ example_unit (example_run_returns _ (by simp))

/-- C8 at the example tables. -/
theorem vertex_130_ClipDistance_witness :
    lookup_variable (_mesa_glsl_initialize_variables example_tables
        ⟨_mesa_glsl_parser_targets.vertex_shader, 130, ⟨8, 4⟩⟩ example_unit).2
        "gl_ClipDistance" =
      some
        { name := "gl_ClipDistance"
          type := glsl_type.array glsl_type.float_type 8
          mode := ir_variable_mode.ir_var_out
          read_only := false
          shader_in := false
          shader_out := true
          location := -1
          constant_value := none
          warn_extension := none } :=
  (vertex_130_ClipDistance example_tables ⟨8, 4⟩ example_unit).2
    (example_run_returns _ (by simp))

/-- C10 at the example tables: the vertex stage, version 130, returns on the example
compile unit. -/
theorem dispatcher_outcomes_witness :
    (_mesa_glsl_initialize_variables example_tables
      ⟨_mesa_glsl_parser_targets.vertex_shader, 130, ⟨8, 4⟩⟩ example_unit).1 =
      Outcome.returned () :=
  (dispatcher_outcomes example_tables 130 ⟨8, 4⟩ example_unit).2.2
    _mesa_glsl_parser_targets.vertex_shader (by simp)
    (by simp [tables_used, example_tables, example_unit, glsl_symbol_table.get_type,
      assoc_find])
    (by simp [example_unit, glsl_symbol_table.get_type, assoc_find])
    (by simp [tables_used, example_tables, mode_flags])
    (builtin_names_nodup _ _ (by simp [stage_table_names, example_tables])
      (by simp [stage_table_names, example_tables, hard_coded_names]))
    (fun _ _ => rfl)

/-! ## Further claims -/

/-- C11: when `add_variable` is called with a name that the symbol table already binds,
the call ends in a fatal error whatever the other arguments are: it returns no node,
and the symbol table is left as it was; for a mode known to the `switch` the error is
the failed insertion. -/
theorem add_variable_duplicate_fatal (name : String) (mode : ir_variable_mode) (slot : Int)
    (type : glsl_type) (w : compile_unit) (r : Nat)
    (hbound : w.symbols.get_variable name = some r) :
    (∃ e, (add_variable name mode slot type w).1 = Outcome.fatal e) ∧
    (∀ ref, (add_variable name mode slot type w).1 ≠ Outcome.returned ref) ∧
    (add_variable name mode slot type w).2.symbols = w.symbols ∧
    ((mode_flags mode).isSome = true →
      (add_variable name mode slot type w).1 =
        Outcome.fatal fatal_error.duplicate_symbol) := by
  cases hm : mode_flags mode with
  | none =>
    cases mode <;> simp [mode_flags] at hm
    simp [add_variable_unrecognized]
  | some fl =>
    have hs : (mode_flags mode).isSome = true := by rw [hm]; rfl
    rw [add_variable_eq _ _ _ _ _ hs, hbound]
    simp

/-- C11 at a concrete input: `gl_FragData` declared twice. -/
theorem add_variable_duplicate_fatal_witness :
    (∃ e, (add_variable "gl_FragData" ir_variable_mode.ir_var_out 2 glsl_type.vec4_type
        ⟨[], ⟨[("gl_FragData", 0)], []⟩⟩).1 = Outcome.fatal e) ∧
    (∀ ref, (add_variable "gl_FragData" ir_variable_mode.ir_var_out 2 glsl_type.vec4_type
        ⟨[], ⟨[("gl_FragData", 0)], []⟩⟩).1 ≠ Outcome.returned ref) ∧
    (add_variable "gl_FragData" ir_variable_mode.ir_var_out 2 glsl_type.vec4_type
        ⟨[], ⟨[("gl_FragData", 0)], []⟩⟩).2.symbols = ⟨[("gl_FragData", 0)], []⟩ ∧
    ((mode_flags ir_variable_mode.ir_var_out).isSome = true →
      (add_variable "gl_FragData" ir_variable_mode.ir_var_out 2 glsl_type.vec4_type
        ⟨[], ⟨[("gl_FragData", 0)], []⟩⟩).1 =
        Outcome.fatal fatal_error.duplicate_symbol) :=
  add_variable_duplicate_fatal "gl_FragData" ir_variable_mode.ir_var_out 2
    glsl_type.vec4_type ⟨[], ⟨[("gl_FragData", 0)], []⟩⟩ 0 (by simp [glsl_symbol_table.get_variable, assoc_find])

/-- C13: for the vertex and the fragment stage and every language version other than
110, 120 and 130, `_mesa_glsl_initialize_variables` returns normally and leaves the
symbol table and the instruction list as they were. -/
theorem unsupported_version_unchanged (T : builtin_tables) (state : _mesa_glsl_parse_state)
    (w : compile_unit)
    (hstage : state.target = _mesa_glsl_parser_targets.vertex_shader ∨
      state.target = _mesa_glsl_parser_targets.fragment_shader)
    (h110 : state.language_version ≠ 110) (h120 : state.language_version ≠ 120)
    (h130 : state.language_version ≠ 130) :
    _mesa_glsl_initialize_variables T state w = (Outcome.returned (), w) ∧
    (_mesa_glsl_initialize_variables T state w).2.symbols = w.symbols ∧
    (_mesa_glsl_initialize_variables T state w).2.instructions = w.instructions := by
  have h : _mesa_glsl_initialize_variables T state w = (Outcome.returned (), w) := by
    rcases hstage with hs | hs <;>
      simp [_mesa_glsl_initialize_variables, hs, initialize_vs_variables,
        initialize_fs_variables, h110, h120, h130, pure_apply]
  rw [h]
  exact ⟨rfl, rfl, rfl⟩

/-- C13 at a concrete input: the fragment stage with version 140. -/
theorem unsupported_version_unchanged_witness :
    _mesa_glsl_initialize_variables example_tables
        ⟨_mesa_glsl_parser_targets.fragment_shader, 140, ⟨8, 4⟩⟩ example_unit =
      (Outcome.returned (), example_unit) ∧
    (_mesa_glsl_initialize_variables example_tables
        ⟨_mesa_glsl_parser_targets.fragment_shader, 140, ⟨8, 4⟩⟩ example_unit).2.symbols =
      example_unit.symbols ∧
    (_mesa_glsl_initialize_variables example_tables
        ⟨_mesa_glsl_parser_targets.fragment_shader, 140, ⟨8, 4⟩⟩ example_unit).2.instructions =
      example_unit.instructions :=
  unsupported_version_unchanged example_tables
    ⟨_mesa_glsl_parser_targets.fragment_shader, 140, ⟨8, 4⟩⟩ example_unit (Or.inr rfl)
    (by decide) (by decide) (by decide)

/-- C15: for every instruction list and symbol table, a mode known to the `switch` and
a name that is not bound yet, `add_variable` returns the reference to a new node; the
instruction list is the old one followed by exactly that node; the symbol table maps
the name to that reference; the bindings of all other names and the type registry are
unchanged; the node carries the given name, type, mode and slot. -/
theorem add_variable_frame (name : String) (mode : ir_variable_mode) (slot : Int)
    (type : glsl_type) (w : compile_unit) (hm : (mode_flags mode).isSome = true)
    (hfresh : w.symbols.get_variable name = none) :
    ∃ node : ir_variable,
      node.name = name ∧ node.type = type ∧ node.mode = mode ∧ node.location = slot ∧
      (add_variable name mode slot type w).1 = Outcome.returned w.instructions.length ∧
      (add_variable name mode slot type w).2.instructions = w.instructions ++ [node] ∧
      (add_variable name mode slot type w).2.instructions[w.instructions.length]? =
        some node ∧
      (add_variable name mode slot type w).2.symbols.get_variable name =
        some w.instructions.length ∧
      (∀ n, n ≠ name →
        (add_variable name mode slot type w).2.symbols.get_variable n =
          w.symbols.get_variable n) ∧
      (add_variable name mode slot type w).2.symbols.types = w.symbols.types := by
  refine ⟨declared name mode slot type, rfl, rfl, rfl, rfl, ?_⟩
  rw [add_variable_eq _ _ _ _ _ hm, hfresh]
  refine ⟨rfl, rfl, by simp, ?_, ?_, rfl⟩
  · simp [glsl_symbol_table.get_variable, assoc_find]
  · intro n hn
    simp [glsl_symbol_table.get_variable, assoc_find, Ne.symm hn]

/-- C15 at a concrete input: `gl_FragData` declared in the example compile unit. -/
theorem add_variable_frame_witness :
    ∃ node : ir_variable,
      node.name = "gl_FragData" ∧ node.type = glsl_type.vec4_type ∧
      node.mode = ir_variable_mode.ir_var_out ∧ node.location = 2 ∧
      (add_variable "gl_FragData" ir_variable_mode.ir_var_out 2 glsl_type.vec4_type
        example_unit).1 = Outcome.returned example_unit.instructions.length ∧
      (add_variable "gl_FragData" ir_variable_mode.ir_var_out 2 glsl_type.vec4_type
        example_unit).2.instructions = example_unit.instructions ++ [node] ∧
      (add_variable "gl_FragData" ir_variable_mode.ir_var_out 2 glsl_type.vec4_type
        example_unit).2.instructions[example_unit.instructions.length]? = some node ∧
      (add_variable "gl_FragData" ir_variable_mode.ir_var_out 2 glsl_type.vec4_type
        example_unit).2.symbols.get_variable "gl_FragData" =
        some example_unit.instructions.length ∧
      (∀ n, n ≠ "gl_FragData" →
        (add_variable "gl_FragData" ir_variable_mode.ir_var_out 2 glsl_type.vec4_type
          example_unit).2.symbols.get_variable n = example_unit.symbols.get_variable n) ∧
      (add_variable "gl_FragData" ir_variable_mode.ir_var_out 2 glsl_type.vec4_type
        example_unit).2.symbols.types = example_unit.symbols.types :=
  add_variable_frame "gl_FragData" ir_variable_mode.ir_var_out 2 glsl_type.vec4_type
    example_unit rfl rfl

/-- When a run of declarations returns, the instruction list has grown by exactly the
finished nodes of the declarations, in order, one for each declaration. -/
theorem run_decls_returned_exact (L : List decl) (w : compile_unit)
    (h : (run_decls L w).1 = Outcome.returned ()) :
    (run_decls L w).2.instructions = w.instructions ++ L.filterMap decl.finished ∧
    (L.filterMap decl.finished).length = L.length := by
  induction L generalizing w with
  | nil => simp [run_decls_nil]
  | cons d L ih =>
    have h1 := run_decls_cons_returned d L w h
    rw [run_decls_cons_of_returned d L w h1] at h ⊢
    obtain ⟨t, ht, _, _, hw⟩ := run_decl_returned d w h1
    obtain ⟨h2, h3⟩ := ih _ h
    have hf : decl.finished d = some (d.node t) := by simp [decl.finished, ht]
    rw [h2, hw, List.filterMap_cons_some hf]
    simp [h3]

/-- The nodes added by a run all satisfy a property that the pushed and the finished
node of every declaration with a known mode satisfy, however the run ends. -/
theorem run_decls_added (P : ir_variable → Prop) (L : List decl) (w : compile_unit)
    (hP : ∀ d ∈ L, ∀ t, (mode_flags d.mode).isSome = true → P (d.bare t) ∧ P (d.node t)) :
    ∃ added, (run_decls L w).2.instructions = w.instructions ++ added ∧
      ∀ v ∈ added, P v := by
  induction L generalizing w with
  | nil => exact ⟨[], by simp [run_decls_nil], by simp⟩
  | cons d L ih =>
    have hd : ∃ a1, (run_decl d w).2.instructions = w.instructions ++ a1 ∧
        ∀ v ∈ a1, P v := by
      unfold run_decl
      cases d.type with
      | none => exact ⟨[], by simp, by simp⟩
      | some t =>
        cases hm : mode_flags d.mode with
        | none => exact ⟨[], by simp, by simp⟩
        | some fl =>
          have hp := hP d (List.mem_cons_self _ _) t (by rw [hm]; rfl)
          cases w.symbols.get_variable d.name with
          | some r => exact ⟨[d.bare t], rfl, by simpa using hp.1⟩
          | none => exact ⟨[d.node t], rfl, by simpa using hp.2⟩
    obtain ⟨a1, h1, h2⟩ := hd
    rcases outcome_cases (run_decl d w).1 with hr | ⟨e, hr⟩
    · rw [run_decls_cons_of_returned d L w hr]
      obtain ⟨a2, h3, h4⟩ :=
        ih (run_decl d w).2 (fun x hx => hP x (List.mem_cons_of_mem _ hx))
      refine ⟨a1 ++ a2, by rw [h3, h1, List.append_assoc], ?_⟩
      intro v hv
      rcases List.mem_append.mp hv with hv | hv
      · exact h2 v hv
      · exact h4 v hv
    · rw [run_decls_cons_of_fatal d L w e hr]
      exact ⟨a1, h1, h2⟩

/-- A longer run extends the instruction list of a shorter one. -/
theorem run_decls_append_instructions_prefix (L1 L2 : List decl) (w : compile_unit) :
    (run_decls L1 w).2.instructions <+: (run_decls (L1 ++ L2) w).2.instructions := by
  rcases outcome_cases (run_decls L1 w).1 with h1 | ⟨e, h1⟩
  · rw [run_decls_append_of_returned L1 L2 w h1]
    exact run_decls_instructions_prefix L2 _
  · rw [run_decls_append_of_fatal L1 L2 w e h1]

/-- A run that returns keeps the insertions in step with the instruction list. -/
theorem run_decls_in_step (L : List decl) (w : compile_unit)
    (h : (run_decls L w).1 = Outcome.returned ())
    (hw : insertions w = own_name_insertions w) :
    insertions (run_decls L w).2 = own_name_insertions (run_decls L w).2 := by
  induction L generalizing w with
  | nil => exact hw
  | cons d L ih =>
    have h1 := run_decls_cons_returned d L w h
    rw [run_decls_cons_of_returned d L w h1] at h ⊢
    apply ih _ h
    obtain ⟨t, _, _, _, hw1⟩ := run_decl_returned d w h1
    rw [hw1]
    unfold insertions own_name_insertions at hw ⊢
    simp [List.enum_append, hw, decl.node, decl.bare, List.enumFrom_singleton]

/-- Every declaration of a run comes from a row of the tables in use or is a
hard-coded declaration; only the declarations of the tables can lack a type handle, and
none asks for a warning tag. -/
theorem decls_of_origin (T : builtin_tables) (state : _mesa_glsl_parse_state)
    (types : List (String × glsl_type)) (d : decl) (hd : d ∈ decls_of T state types) :
    (∃ p ∈ tables_used T state, d = decl_of_proto types p) ∨
    (d.name ∈ hard_coded_names ∧ d.warn = none ∧ d.type.isSome = true) := by
  unfold decls_of at hd
  unfold tables_used
  cases ht : state.target <;> simp only [ht] at hd ⊢
  · unfold decls_vs at hd
    split_ifs at hd with h1 h2 h3 <;>
      simp only [decls_110_vs, decls_110_uniforms, decls_130_vs_extra,
        decls_hard_coded_uniforms, decls_ARB_draw_buffers, decl_TexCoord, decl_ClipDistance,
        List.mem_append, List.mem_map, List.mem_cons, List.mem_singleton, List.not_mem_nil,
        reduceCtorEq, if_false, or_false] at hd <;>
      casesm* _ ∨ _, ∃ _, _, _ ∧ _ <;> subst_vars <;>
      first
        | exact Or.inl ⟨_, by simp [*], rfl⟩
        | exact Or.inr ⟨by simp [hard_coded_names], rfl, rfl⟩
  · cases hd
  · unfold decls_fs at hd
    split_ifs at hd with h1 h2 h3 <;>
      simp only [decls_110_fs, decls_110_uniforms, decls_120_fs_extra,
        decls_hard_coded_uniforms, decls_ARB_draw_buffers, decl_TexCoord, decl_ClipDistance,
        List.mem_append, List.mem_map, List.mem_cons, List.mem_singleton, List.not_mem_nil,
        if_true, or_false] at hd <;>
      casesm* _ ∨ _, ∃ _, _, _ ∧ _ <;> subst_vars <;>
      first
        | exact Or.inl ⟨_, by simp [*], rfl⟩
        | exact Or.inr ⟨by simp [hard_coded_names], rfl, rfl⟩
  · cases hd

/-- A name stays as it was in the symbol table when every declaration of that name
lacks a type handle. -/
theorem run_decls_unbound (L : List decl) (w : compile_unit) (n : String)
    (h : ∀ d ∈ L, d.name = n → d.type = none) :
    (run_decls L w).2.symbols.get_variable n = w.symbols.get_variable n := by
  induction L generalizing w with
  | nil => rfl
  | cons d L ih =>
    have hd : (run_decl d w).2.symbols.get_variable n = w.symbols.get_variable n := by
      by_cases hn : d.name = n
      · have ht := h d (List.mem_cons_self _ _) hn
        simp [run_decl, ht]
      · unfold glsl_symbol_table.get_variable
        rcases run_decl_bindings d w with hb | hb
        · rw [hb]
        · rw [hb, assoc_find_cons_ne _ _ _ _ hn]
    rcases outcome_cases (run_decl d w).1 with hr | ⟨e, hr⟩
    · rw [run_decls_cons_of_returned d L w hr,
        ih _ (fun x hx => h x (List.mem_cons_of_mem _ hx)), hd]
    · rw [run_decls_cons_of_fatal d L w e hr, hd]

/-- The nodes that `_mesa_glsl_initialize_variables` adds all satisfy a property that
the pushed and the finished node of each of its declarations satisfy, however the run
ends. -/
theorem initialize_variables_added (P : ir_variable → Prop) (T : builtin_tables)
    (state : _mesa_glsl_parse_state) (w : compile_unit)
    (hP : ∀ d ∈ decls_of T state w.symbols.types, ∀ t,
      (mode_flags d.mode).isSome = true → P (d.bare t) ∧ P (d.node t)) :
    ∃ added, (_mesa_glsl_initialize_variables T state w).2.instructions =
        w.instructions ++ added ∧
      ∀ v ∈ added, P v := by
  by_cases hne : state.target = _mesa_glsl_parser_targets.ir_shader
  · exact ⟨[], by simp [_mesa_glsl_initialize_variables, hne, die], by simp⟩
  · rw [initialize_variables_eq T state w hne]
    exact run_decls_added P _ w hP

/-- C14: for every stage, version, table content and limits, every variable that
`_mesa_glsl_initialize_variables` adds to the instruction list, from a table row or
hard-coded, has a mode among auto, in, out, inout and uniform and carries the
(read_only, shader_in, shader_out) flags of that mode: (true, false, false) for auto,
(true, true, false) for in, (false, false, true) for out, (false, true, true) for inout
and (true, true, false) for uniform. -/
theorem registered_flags_match (T : builtin_tables) (state : _mesa_glsl_parse_state)
    (w : compile_unit) :
    ∃ added, (_mesa_glsl_initialize_variables T state w).2.instructions =
        w.instructions ++ added ∧
      ∀ v ∈ added,
        mode_flags v.mode = some (v.read_only, v.shader_in, v.shader_out) := by
  apply initialize_variables_added
  intro d _ t hm
  obtain ⟨fl, hfl⟩ := Option.isSome_iff_exists.mp hm
  simp [decl.bare, decl.node, hfl]

/-- C18: for every stage, language version, table content and limits, no variable that
`_mesa_glsl_initialize_variables` adds to the instruction list carries a warning tag,
however the run ends. -/
theorem no_warning_tags (T : builtin_tables) (state : _mesa_glsl_parse_state)
    (w : compile_unit) :
    ∃ added, (_mesa_glsl_initialize_variables T state w).2.instructions =
        w.instructions ++ added ∧
      ∀ v ∈ added, v.warn_extension = none := by
  apply initialize_variables_added
  intro d hd t _
  have hwarn : d.warn = none := by
    rcases decls_of_origin T state _ d hd with ⟨p, _, rfl⟩ | ⟨_, h, _⟩
    · rfl
    · exact h
  simp [decl.bare, decl.node, hwarn]

/-- C17: for the vertex stage and for the fragment stage, with the same tables, limits
and initial state, the instructions there before the call are a prefix of the
instruction list after the run for version 110, which is a prefix of the list after
the run for version 120, which is a prefix of the list after the run for version
130. -/
theorem cascade_initial_segments (T : builtin_tables) (Const : gl_constants) (w : compile_unit) :
    (w.instructions <+: (_mesa_glsl_initialize_variables T
        ⟨_mesa_glsl_parser_targets.vertex_shader, 110, Const⟩ w).2.instructions ∧
      (_mesa_glsl_initialize_variables T
        ⟨_mesa_glsl_parser_targets.vertex_shader, 110, Const⟩ w).2.instructions <+:
      (_mesa_glsl_initialize_variables T
        ⟨_mesa_glsl_parser_targets.vertex_shader, 120, Const⟩ w).2.instructions ∧
      (_mesa_glsl_initialize_variables T
        ⟨_mesa_glsl_parser_targets.vertex_shader, 120, Const⟩ w).2.instructions <+:
      (_mesa_glsl_initialize_variables T
        ⟨_mesa_glsl_parser_targets.vertex_shader, 130, Const⟩ w).2.instructions) ∧
    (w.instructions <+: (_mesa_glsl_initialize_variables T
        ⟨_mesa_glsl_parser_targets.fragment_shader, 110, Const⟩ w).2.instructions ∧
      (_mesa_glsl_initialize_variables T
        ⟨_mesa_glsl_parser_targets.fragment_shader, 110, Const⟩ w).2.instructions <+:
      (_mesa_glsl_initialize_variables T
        ⟨_mesa_glsl_parser_targets.fragment_shader, 120, Const⟩ w).2.instructions ∧
      (_mesa_glsl_initialize_variables T
        ⟨_mesa_glsl_parser_targets.fragment_shader, 120, Const⟩ w).2.instructions <+:
      (_mesa_glsl_initialize_variables T
        ⟨_mesa_glsl_parser_targets.fragment_shader, 130, Const⟩ w).2.instructions) := by
  simp only [initialize_variables_eq T _ w (by simp : (_mesa_glsl_parse_state.mk
      _mesa_glsl_parser_targets.vertex_shader _ Const).target ≠ _),
    initialize_variables_eq T _ w (by simp : (_mesa_glsl_parse_state.mk
      _mesa_glsl_parser_targets.fragment_shader _ Const).target ≠ _)]
  refine ⟨⟨?_, ?_, ?_⟩, ⟨?_, ?_, ?_⟩⟩
  · exact run_decls_instructions_prefix _ w
  · exact List.prefix_refl _
  · exact run_decls_append_instructions_prefix _ _ w
  · exact run_decls_instructions_prefix _ w
  · exact run_decls_append_instructions_prefix _ _ w
  · exact run_decls_append_instructions_prefix _ _ w

theorem finished_decl_of_proto (types : List (String × glsl_type)) :
    decl.finished ∘ decl_of_proto types = builtin_node types := by
  funext p
  simp only [Function.comp, decl.finished, decl_of_proto, builtin_node]
  cases assoc_find p.type types <;> rfl

/-- C16: for the fragment stage, when the run for version 130 returns, its instruction
list is the list of the run for version 120 followed by the single variable
`gl_ClipDistance` with mode in (read_only and shader_in set, shader_out clear), slot -1
and type array of `float` of length 8; and the list of the run for version 120 is the
list of the run for version 110 followed by the nodes of the rows of
`builtin_120_fs_variables`, one for each row, in table order. -/
theorem fragment_cascade_exact (T : builtin_tables) (Const : gl_constants) (w : compile_unit)
    (hret : (_mesa_glsl_initialize_variables T
      ⟨_mesa_glsl_parser_targets.fragment_shader, 130, Const⟩ w).1 = Outcome.returned ()) :
    (_mesa_glsl_initialize_variables T
        ⟨_mesa_glsl_parser_targets.fragment_shader, 130, Const⟩ w).2.instructions =
      (_mesa_glsl_initialize_variables T
        ⟨_mesa_glsl_parser_targets.fragment_shader, 120, Const⟩ w).2.instructions ++
        [{ name := "gl_ClipDistance"
           type := glsl_type.array glsl_type.float_type 8
           mode := ir_variable_mode.ir_var_in
           read_only := true
           shader_in := true
           shader_out := false
           location := -1
           constant_value := none
           warn_extension := none }] ∧
    (_mesa_glsl_initialize_variables T
        ⟨_mesa_glsl_parser_targets.fragment_shader, 120, Const⟩ w).2.instructions =
      (_mesa_glsl_initialize_variables T
        ⟨_mesa_glsl_parser_targets.fragment_shader, 110, Const⟩ w).2.instructions ++
        T.builtin_120_fs_variables.filterMap (builtin_node w.symbols.types) ∧
    (T.builtin_120_fs_variables.filterMap (builtin_node w.symbols.types)).length =
      T.builtin_120_fs_variables.length := by
  have e130 : _mesa_glsl_initialize_variables T
      ⟨_mesa_glsl_parser_targets.fragment_shader, 130, Const⟩ w =
      generate_130_fs_variables T Const w := rfl
  have e120 : _mesa_glsl_initialize_variables T
      ⟨_mesa_glsl_parser_targets.fragment_shader, 120, Const⟩ w =
      generate_120_fs_variables T Const w := rfl
  have e110 : _mesa_glsl_initialize_variables T
      ⟨_mesa_glsl_parser_targets.fragment_shader, 110, Const⟩ w =
      generate_110_fs_variables T Const w := rfl
  rw [e130, generate_130_fs_variables_eq] at hret
  rw [e130, e120, e110, generate_130_fs_variables_eq, generate_120_fs_variables_eq,
    generate_110_fs_variables_eq]
  have h120 := run_decls_append_returned _ _ w hret
  have h110 := run_decls_append_returned _ _ w h120
  rw [run_decls_append_of_returned _ _ w h120] at hret ⊢
  obtain ⟨hc, _⟩ := run_decls_returned_exact _ _ hret
  refine ⟨?_, ?_⟩
  · rw [hc]
    rfl
  · rw [run_decls_append_of_returned _ _ w h110] at h120 ⊢
    obtain ⟨hx, hl⟩ := run_decls_returned_exact _ _ h120
    simp only [decls_120_fs_extra, List.filterMap_map, finished_decl_of_proto,
      List.length_map] at hx hl
    exact ⟨hx, hl⟩

/-- C16 at the example tables. -/
theorem fragment_cascade_exact_witness :
    (_mesa_glsl_initialize_variables example_tables
        ⟨_mesa_glsl_parser_targets.fragment_shader, 130, ⟨8, 4⟩⟩ example_unit).2.instructions =
      (_mesa_glsl_initialize_variables example_tables
        ⟨_mesa_glsl_parser_targets.fragment_shader, 120, ⟨8, 4⟩⟩ example_unit).2.instructions ++
        [{ name := "gl_ClipDistance"
           type := glsl_type.array glsl_type.float_type 8
           mode := ir_variable_mode.ir_var_in
           read_only := true
           shader_in := true
           shader_out := false
           location := -1
           constant_value := none
           warn_extension := none }] ∧
    (_mesa_glsl_initialize_variables example_tables
        ⟨_mesa_glsl_parser_targets.fragment_shader, 120, ⟨8, 4⟩⟩ example_unit).2.instructions =
      (_mesa_glsl_initialize_variables example_tables
        ⟨_mesa_glsl_parser_targets.fragment_shader, 110, ⟨8, 4⟩⟩ example_unit).2.instructions ++
        example_tables.builtin_120_fs_variables.filterMap
          (builtin_node example_unit.symbols.types) ∧
    (example_tables.builtin_120_fs_variables.filterMap
        (builtin_node example_unit.symbols.types)).length =
      example_tables.builtin_120_fs_variables.length :=
  fragment_cascade_exact example_tables ⟨8, 4⟩ example_unit (example_run_returns _ (by simp))

/-- C19: for every stage, version and limits, when a run of
`_mesa_glsl_initialize_variables` that starts from an empty instruction list and a
symbol table without variables returns, there are as many insertions as instructions,
the i-th insertion binds the name of the i-th instruction to the reference i of that
instruction, and the name of every instruction resolves to that instruction. -/
theorem symbol_table_in_step (T : builtin_tables) (state : _mesa_glsl_parse_state)
    (w : compile_unit)
    (hret : (_mesa_glsl_initialize_variables T state w).1 = Outcome.returned ())
    (hinstr : w.instructions = []) (hsym : w.symbols.bindings = []) :
    (insertions (_mesa_glsl_initialize_variables T state w).2).length =
      (_mesa_glsl_initialize_variables T state w).2.instructions.length ∧
    insertions (_mesa_glsl_initialize_variables T state w).2 =
      own_name_insertions (_mesa_glsl_initialize_variables T state w).2 ∧
    (∀ (i : Nat) (v : ir_variable),
      (_mesa_glsl_initialize_variables T state w).2.instructions[i]? = some v →
      (insertions (_mesa_glsl_initialize_variables T state w).2)[i]? = some (v.name, i)) ∧
    (∀ v ∈ (_mesa_glsl_initialize_variables T state w).2.instructions,
      lookup_variable (_mesa_glsl_initialize_variables T state w).2 v.name = some v) := by
  have hne : state.target ≠ _mesa_glsl_parser_targets.ir_shader := by
    intro h
    simp [_mesa_glsl_initialize_variables, h, die] at hret
  rw [initialize_variables_eq T state w hne] at hret ⊢
  have hstep := run_decls_in_step _ w hret
    (by simp [insertions, own_name_insertions, hinstr, hsym])
  refine ⟨?_, hstep, ?_, ?_⟩
  · rw [hstep]
    simp [own_name_insertions]
  · intro i v hv
    rw [hstep]
    simp [own_name_insertions, List.getElem?_enum, hv]
  · intro v hv
    rw [(run_decls_returned_exact _ w hret).1, hinstr, List.nil_append] at hv
    obtain ⟨d, hd, hf⟩ := List.mem_filterMap.mp hv
    obtain ⟨t, ht, hl⟩ := run_decls_lookup _ w hret d hd
    simp only [decl.finished, ht, Option.map_some', Option.some.injEq] at hf
    rw [← hf]
    exact hl

/-- C19 at the example tables, for the vertex stage and version 130. -/
theorem symbol_table_in_step_witness :
    (insertions (_mesa_glsl_initialize_variables example_tables
      ⟨_mesa_glsl_parser_targets.vertex_shader, 130, ⟨8, 4⟩⟩ example_unit).2).length =
      (_mesa_glsl_initialize_variables example_tables
        ⟨_mesa_glsl_parser_targets.vertex_shader, 130, ⟨8, 4⟩⟩
        example_unit).2.instructions.length ∧
    insertions (_mesa_glsl_initialize_variables example_tables
      ⟨_mesa_glsl_parser_targets.vertex_shader, 130, ⟨8, 4⟩⟩ example_unit).2 =
      own_name_insertions (_mesa_glsl_initialize_variables example_tables
        ⟨_mesa_glsl_parser_targets.vertex_shader, 130, ⟨8, 4⟩⟩ example_unit).2 ∧
    (∀ (i : Nat) (v : ir_variable), (_mesa_glsl_initialize_variables example_tables
        ⟨_mesa_glsl_parser_targets.vertex_shader, 130, ⟨8, 4⟩⟩
        example_unit).2.instructions[i]? = some v →
      (insertions (_mesa_glsl_initialize_variables example_tables
        ⟨_mesa_glsl_parser_targets.vertex_shader, 130, ⟨8, 4⟩⟩ example_unit).2)[i]? =
        some (v.name, i)) ∧
    (∀ v ∈ (_mesa_glsl_initialize_variables example_tables
        ⟨_mesa_glsl_parser_targets.vertex_shader, 130, ⟨8, 4⟩⟩ example_unit).2.instructions,
      lookup_variable (_mesa_glsl_initialize_variables example_tables
        ⟨_mesa_glsl_parser_targets.vertex_shader, 130, ⟨8, 4⟩⟩ example_unit).2 v.name =
        some v) :=
  symbol_table_in_step example_tables
    ⟨_mesa_glsl_parser_targets.vertex_shader, 130, ⟨8, 4⟩⟩ example_unit
    (example_run_returns _ (by simp)) rfl rfl

end Glsl
